import Mathlib

/-!
Verification of the deployment platform core (backend/core/utils.py,
backend/services/deployment_orchestrator.py, backend/services/health_checker.py,
backend/database/repositories.py, backend/database/models.py) against its
natural-language specification.

The Python code is shallowly embedded: pure helpers become Lean functions,
the SSH retry loop and the orchestrator workflow become state-passing
functions over explicit record types, collaborator calls (AWS, Docker, NGINX,
GitHub, HTTP health probes) become outcome-valued environment fields, and
raised exceptions become an Except-style result.  Wall-clock time is modelled
by the sleeps only: a failed connection attempt is instantaneous and each
retry sleep advances the clock by exactly the retry interval.
-/

namespace MLDeploy

/-! ## Remote execution client: SSHClient.connect (backend/core/utils.py) -/

/-- Model of the exception classes that the transient branch of
SSHClient.connect catches: socket.timeout, ConnectionRefusedError,
socket.gaierror, and any other socket.error / paramiko.SSHException /
EOFError carrying a message string. -/
inductive SSHError where
  | socketTimeout
  | connectionRefused
  | gaierror
  | other (msg : String)
deriving DecidableEq

/-- Character-list membership test used to model the Python substring
operator "pat in s". -/
def charsPfx : List Char → List Char → Bool
  | [], _ => true
  | _ :: _, [] => false
  | a :: as, b :: bs => a = b && charsPfx as bs

/-- True when pat occurs as a contiguous run inside s. -/
def charsSub (pat : List Char) : List Char → Bool
  | [] => charsPfx pat []
  | b :: rest => charsPfx pat (b :: rest) || charsSub pat rest

/-- Model of the Python test: pat in s. -/
def strHas (s pat : String) : Bool :=
  charsSub pat.toList s.toList

/-- SSHClient._classify_ssh_error: maps a caught transient exception to a
user-facing error category, following the isinstance checks and then the
substring checks on the lowercased message, in source order. -/
def classifySSHError : SSHError → String
  | .socketTimeout => "connection timeout"
  | .connectionRefused => "SSH daemon not started"
  | .gaierror => "DNS resolution failed"
  | .other msg =>
      if strHas msg.toLower "timed out" then "connection timeout"
      else if strHas msg.toLower "refused" then "connection refused"
      else if strHas msg.toLower "unreachable" then "network unreachable"
      else "SSH not ready"

/-- Outcome of one paramiko connect() call, as distinguished by the four
handlers in SSHClient.connect: success, AuthenticationException (carrying
str(e)), one of the expected transient errors, or an unexpected exception
(carrying type(e).__name__). -/
inductive AttemptOutcome where
  | success
  | authError (msg : String)
  | transientError (e : SSHError)
  | unexpectedError (name : String)
deriving DecidableEq

/-- One invocation of a progress callback: (step, message, status); the data
argument is always an empty dict inside connect and is not modelled. -/
structure ProgressEvent where
  step : String
  message : String
  status : String
deriving DecidableEq

/-- How SSHClient.connect terminates.  attempts counts the connection
attempts actually issued (calls into paramiko), elapsed is the modelled
clock at termination.  zeroDivRaised models the Python ZeroDivisionError
from max_wait // retry_interval when retry_interval = 0; fuelExhausted is
an artifact of the fuel-bounded loop and is unreachable for the fuel
chosen by connect (see connect). -/
inductive ConnectOutcome where
  | connected (attempts elapsed : Nat)
  | authRaised (attempts : Nat) (msg : String)
  | timeoutRaised (attempts elapsed : Nat) (msg : String)
  | zeroDivRaised
  | fuelExhausted
deriving DecidableEq

structure ConnectResult where
  outcome : ConnectOutcome
  events : List ProgressEvent
deriving DecidableEq

/-- Message of the TimeoutError raised when max_wait is exceeded. -/
def timeoutMsg (maxWait : Nat) : String :=
  s!"SSH not available after {maxWait}s. Check security groups and instance logs."

/-- Event emitted when max_wait is exceeded, just before TimeoutError. -/
def timeoutEvent (maxWait : Nat) : ProgressEvent :=
  ⟨"SSH Connection", s!"[ERROR] {timeoutMsg maxWait}", "error"⟩

/-- Event emitted after a classified transient failure, before the sleep
that precedes the next attempt. -/
def transientEvent (errType : String) (attempt maxAttempts remaining : Nat) : ProgressEvent :=
  ⟨"SSH Connection",
   s!"[WAIT] SSH not ready ({errType}), retrying {attempt}/{maxAttempts} (~{remaining}s remaining)...",
   "in_progress"⟩

/-- Event emitted on a successful connection. -/
def successEvent (elapsed attempts : Nat) : ProgressEvent :=
  ⟨"SSH Connection",
   s!"[OK] SSH connection established after {elapsed}s ({attempts} attempts)",
   "success"⟩

/-- Event emitted on an AuthenticationException, before the re-raise. -/
def authEvent (msg : String) : ProgressEvent :=
  ⟨"SSH Connection", s!"[ERROR] SSH authentication failed: {msg}", "error"⟩

/-- Event emitted on an unexpected exception, before the retry sleep. -/
def unexpectedEvent (name : String) : ProgressEvent :=
  ⟨"SSH Connection", s!"[WARN] Unexpected error: {name}", "warning"⟩

/-- Initial event emitted by connect before the first attempt. -/
def initialSSHEvent : ProgressEvent :=
  ⟨"SSH Connection",
   "Waiting for SSH to become available (cloud-init may be running)...",
   "in_progress"⟩

/-- The while-True loop of SSHClient.connect.  att n is the outcome of the
n-th issued connection attempt; issued counts attempts already issued and
elapsed is the modelled clock.  Each iteration first checks the timeout,
then issues one attempt.  The inner re-check of the timeout in the
unexpected-error handler compares the same elapsed value that the top of
the loop already found below max_wait, so it never fires and the handler
always retries, exactly as in the source.  Events are returned in
chronological order. -/
def connectLoop (att : Nat → AttemptOutcome) (maxWait retryInterval maxAttempts : Nat)
    (issued elapsed : Nat) : Nat → ConnectResult
  | 0 => ⟨.fuelExhausted, []⟩
  | fuel + 1 =>
    if maxWait ≤ elapsed then
      ⟨.timeoutRaised issued elapsed (timeoutMsg maxWait), [timeoutEvent maxWait]⟩
    else
      match att (issued + 1) with
      | .success =>
          ⟨.connected (issued + 1) elapsed, [successEvent elapsed (issued + 1)]⟩
      | .authError m =>
          ⟨.authRaised (issued + 1) m, [authEvent m]⟩
      | .transientError e =>
          let r := connectLoop att maxWait retryInterval maxAttempts
                     (issued + 1) (elapsed + retryInterval) fuel
          ⟨r.outcome,
           transientEvent (classifySSHError e) (issued + 1) maxAttempts (maxWait - elapsed)
             :: r.events⟩
      | .unexpectedError n =>
          let r := connectLoop att maxWait retryInterval maxAttempts
                     (issued + 1) (elapsed + retryInterval) fuel
          ⟨r.outcome, unexpectedEvent n :: r.events⟩

/-- SSHClient.connect.  Computes max_attempts = max_wait // retry_interval
(raising ZeroDivisionError when retry_interval = 0, before any event is
emitted), emits the initial progress event, then runs the retry loop.
Fuel maxWait + 1 suffices whenever retryInterval is positive, since every
retry advances elapsed by at least 1. -/
def connect (att : Nat → AttemptOutcome) (maxWait retryInterval : Nat) : ConnectResult :=
  if retryInterval = 0 then ⟨.zeroDivRaised, []⟩
  else
    let r := connectLoop att maxWait retryInterval (maxWait / retryInterval) 0 0 (maxWait + 1)
    ⟨r.outcome, initialSSHEvent :: r.events⟩

/-- An attempt outcome that the retry loop absorbs (expected transient
errors and the unexpected-exception handler) rather than terminating on. -/
def retriable : AttemptOutcome → Bool
  | .transientError _ => true
  | .unexpectedError _ => true
  | .success => false
  | .authError _ => false

/-- Loop invariant for a host whose every attempt fails transiently under
maxWait = 300, retryInterval = 5: starting after issued attempts at clock
5 * issued, the loop raises the timeout with exactly 60 attempts issued in
total, and the events are one classified report per remaining attempt, in
attempt order, followed by the timeout report. -/
theorem connectLoop_allTransient (err : Nat → SSHError) :
    ∀ (k issued fuel : Nat), issued + k = 60 → k < fuel →
    connectLoop (fun n => .transientError (err n)) 300 5 60 issued (5 * issued) fuel =
      ⟨.timeoutRaised 60 300 (timeoutMsg 300),
       (List.range' (issued + 1) k).map (fun a =>
         transientEvent (classifySSHError (err a)) a 60 (300 - 5 * (a - 1)))
         ++ [timeoutEvent 300]⟩ := by
  intro k
  induction k with
  | zero =>
      intro issued fuel h hf
      obtain ⟨f, rfl⟩ : ∃ f, fuel = f + 1 := ⟨fuel - 1, by omega⟩
      have h60 : issued = 60 := by omega
      subst h60
      simp [connectLoop]
  | succ k ih =>
      intro issued fuel h hf
      obtain ⟨f, rfl⟩ : ∃ f, fuel = f + 1 := ⟨fuel - 1, by omega⟩
      have hlt : ¬ (300 ≤ 5 * issued) := by omega
      have harith : 5 * issued + 5 = 5 * (issued + 1) := by ring
      have htail := ih (issued + 1) f (by omega) (by omega)
      rw [connectLoop]
      simp only [hlt, if_false, harith, htail, List.range'_succ]
      simp

/-- C3 — connect with max_wait = 300 and retry_interval = 5 against a host
whose every connection attempt fails with a transient (non-authentication)
error raises a timeout failure after issuing exactly 60 connection attempts
(not 59 and not 61), and the emitted progress events are precisely: the
initial event, then one classified report per failed attempt in attempt
order (each reported before the next attempt is issued), then the timeout
report. -/
theorem connect_transient_host_sixty_attempts (err : Nat → SSHError) :
    connect (fun n => .transientError (err n)) 300 5 =
      ⟨.timeoutRaised 60 300 (timeoutMsg 300),
       initialSSHEvent ::
         ((List.range' 1 60).map (fun a =>
            transientEvent (classifySSHError (err a)) a 60 (300 - 5 * (a - 1)))
          ++ [timeoutEvent 300])⟩ := by
  have h := connectLoop_allTransient err 60 0 301 (by omega) (by omega)
  rw [connect]
  norm_num at h ⊢
  rw [h]
  exact ⟨rfl, rfl⟩

/-- If the retry loop reaches an authentication failure it raises at once:
after issued attempts at clock elapsed, if the next k attempts are
absorbed retriable failures, attempt issued + k + 1 fails with an
authentication error, and the clock has not run out by then, the loop
terminates with the auth failure after exactly issued + k + 1 attempts. -/
theorem connectLoop_auth (att : Nat → AttemptOutcome) (mw ri ma : Nat) (msg : String) :
    ∀ (k issued elapsed fuel : Nat),
      (∀ j, j < k → retriable (att (issued + j + 1)) = true) →
      att (issued + k + 1) = .authError msg →
      elapsed + k * ri < mw → k < fuel →
      (connectLoop att mw ri ma issued elapsed fuel).outcome
        = .authRaised (issued + k + 1) msg := by
  intro k
  induction k with
  | zero =>
      intro issued elapsed fuel hr ha hm hf
      obtain ⟨f, rfl⟩ : ∃ f, fuel = f + 1 := ⟨fuel - 1, by omega⟩
      have hlt : ¬ (mw ≤ elapsed) := by omega
      rw [connectLoop]
      simp only [hlt, if_false]
      simp only [show issued + 0 + 1 = issued + 1 from rfl] at ha
      rw [ha]
  | succ k ih =>
      intro issued elapsed fuel hr ha hm hf
      obtain ⟨f, rfl⟩ : ∃ f, fuel = f + 1 := ⟨fuel - 1, by omega⟩
      rw [Nat.succ_mul] at hm
      have hlt : ¬ (mw ≤ elapsed) := by omega
      have hr0 : retriable (att (issued + 1)) = true := by
        have := hr 0 (by omega)
        simpa using this
      have hrS : ∀ j, j < k → retriable (att (issued + 1 + j + 1)) = true := by
        intro j hj
        have := hr (j + 1) (by omega)
        have he : issued + (j + 1) + 1 = issued + 1 + j + 1 := by omega
        rwa [he] at this
      have haS : att (issued + 1 + k + 1) = .authError msg := by
        have he : issued + (k + 1) + 1 = issued + 1 + k + 1 := by omega
        rwa [he] at ha
      have hmS : elapsed + ri + k * ri < mw := by omega
      have conc : issued + 1 + k + 1 = issued + (k + 1) + 1 := by omega
      rw [connectLoop]
      simp only [hlt, if_false]
      cases hatt : att (issued + 1) with
      | success => rw [hatt] at hr0; simp [retriable] at hr0
      | authError m => rw [hatt] at hr0; simp [retriable] at hr0
      | transientError e =>
          have := ih (issued + 1) (elapsed + ri) f hrS haS hmS (by omega)
          rw [conc] at this
          simpa using this
      | unexpectedError n =>
          have := ih (issued + 1) (elapsed + ri) f hrS haS hmS (by omega)
          rw [conc] at this
          simpa using this

/-- The retry loop reports a timeout failure only once the clock has
reached max_wait; transient failures alone never surface as a raise
before that. -/
theorem connectLoop_timeout_after_maxWait (att : Nat → AttemptOutcome) (mw ri ma : Nat) :
    ∀ (fuel issued elapsed n el : Nat) (msg : String),
      (connectLoop att mw ri ma issued elapsed fuel).outcome
        = .timeoutRaised n el msg → mw ≤ el := by
  intro fuel
  induction fuel with
  | zero =>
      intro issued elapsed n el msg h
      simp [connectLoop] at h
  | succ f ih =>
      intro issued elapsed n el msg h
      rw [connectLoop] at h
      by_cases hm : mw ≤ elapsed
      · simp only [hm, if_true] at h
        obtain ⟨-, h2, -⟩ := ConnectOutcome.timeoutRaised.inj h
        omega
      · simp only [hm, if_false] at h
        cases hatt : att (issued + 1) with
        | success => rw [hatt] at h; simp at h
        | authError m => rw [hatt] at h; simp at h
        | transientError e =>
            rw [hatt] at h
            exact ih (issued + 1) (elapsed + ri) n el msg h
        | unexpectedError nm =>
            rw [hatt] at h
            exact ih (issued + 1) (elapsed + ri) n el msg h

/-- C4 — authentication failure is terminal and transient failure is not:
(a) for every invocation of connect with a positive retry interval, if the
first k attempts fail retriably, attempt k + 1 fails with an
authentication error, and max_wait has not yet elapsed when it is issued,
then connect raises that authentication failure with exactly k + 1
attempts issued — zero further attempts, however much of max_wait remains;
(b) a timeout failure is only ever raised with elapsed time at least
max_wait, so transient connectivity errors are never raised before
max_wait elapses. -/
theorem connect_auth_terminal_timeout_late (att : Nat → AttemptOutcome) (mw ri : Nat) :
    (∀ (k : Nat) (msg : String), 0 < ri →
      (∀ j, j < k → retriable (att (j + 1)) = true) →
      att (k + 1) = .authError msg → k * ri < mw →
      (connect att mw ri).outcome = .authRaised (k + 1) msg)
    ∧ (∀ (n el : Nat) (msg : String),
        (connect att mw ri).outcome = .timeoutRaised n el msg → mw ≤ el) := by
  constructor
  · intro k msg hri hr ha hkm
    have hri0 : ¬ (ri = 0) := by omega
    have hk : k < mw + 1 := by
      have : k * 1 ≤ k * ri := Nat.mul_le_mul_left k hri
      omega
    rw [connect]
    simp only [hri0, if_false]
    have := connectLoop_auth att mw ri (mw / ri) msg k 0 0 (mw + 1)
      (by intro j hj; simpa using hr j hj) (by simpa using ha) (by omega) hk
    simpa using this
  · intro n el msg h
    rw [connect] at h
    by_cases hri0 : ri = 0
    · simp [hri0] at h
    · simp only [hri0, if_false] at h
      exact connectLoop_timeout_after_maxWait att mw ri (mw / ri)
        (mw + 1) 0 0 n el msg h

/-- Witness for C4 at a concrete input: a host that answers the first
attempt with an authentication failure, max_wait = 300, retry_interval = 5:
connect raises the auth failure after exactly one attempt. -/
theorem connect_auth_terminal_timeout_late_witness :
    (connect (fun _ => .authError "Authentication failed.") 300 5).outcome
      = .authRaised (0 + 1) "Authentication failed." :=
  (connect_auth_terminal_timeout_late (fun _ => .authError "Authentication failed.") 300 5).1
    0 "Authentication failed." (by omega) (by omega) rfl (by omega)

/-! ## Health verifier (backend/services/health_checker.py) -/

/-- Result of HealthChecker.wait_for_healthy, with ghost counters for the
number of checks issued and sleeps taken. -/
structure HealthResult where
  healthy : Bool
  message : String
  checks : Nat
  sleeps : Nat
deriving DecidableEq

/-- Failure message returned after exhausting all attempts. -/
def healthFailMsg (maxRetries : Nat) : String :=
  s!"Application failed to become healthy after {maxRetries} attempts"

/-- Success message returned on the first healthy check. -/
def healthOkMsg (attempt : Nat) : String :=
  s!"Application is healthy after {attempt} attempts"

/-- The for-loop of wait_for_healthy: attempts run from attempt upwards
while rem attempts remain; check n is the outcome of the n-th HTTP health
probe; a sleep happens only between attempts (not after the last). -/
def waitHealthyLoop (check : Nat → Bool) (maxRetries attempt : Nat) : Nat → HealthResult
  | 0 => ⟨false, healthFailMsg maxRetries, 0, 0⟩
  | rem + 1 =>
    if check attempt then ⟨true, healthOkMsg attempt, 1, 0⟩
    else if attempt < maxRetries then
      let r := waitHealthyLoop check maxRetries (attempt + 1) rem
      ⟨r.healthy, r.message, r.checks + 1, r.sleeps + 1⟩
    else ⟨false, healthFailMsg maxRetries, 1, 0⟩

/-- HealthChecker.wait_for_healthy(max_retries): polls check up to
max_retries times starting from attempt 1. -/
def wait_for_healthy (check : Nat → Bool) (maxRetries : Nat) : HealthResult :=
  waitHealthyLoop check maxRetries 1 maxRetries

/-- Against an endpoint that is never healthy, every attempt is consumed
and the loop reports the exhaustion message. -/
theorem waitHealthyLoop_allFalse (check : Nat → Bool) (maxRetries : Nat)
    (hc : ∀ i, check i = false) :
    ∀ (rem attempt : Nat),
      (waitHealthyLoop check maxRetries attempt rem).healthy = false ∧
      (waitHealthyLoop check maxRetries attempt rem).message = healthFailMsg maxRetries := by
  intro rem
  induction rem with
  | zero => intro attempt; simp [waitHealthyLoop]
  | succ rem ih =>
      intro attempt
      have h := ih (attempt + 1)
      by_cases ha : attempt < maxRetries <;>
        simp [waitHealthyLoop, hc, ha, h.1, h.2]

/-- wait_for_healthy against a never-healthy endpoint is unhealthy with
the exhaustion message. -/
theorem wait_for_healthy_allFalse (check : Nat → Bool) (maxRetries : Nat)
    (hc : ∀ i, check i = false) :
    (wait_for_healthy check maxRetries).healthy = false ∧
    (wait_for_healthy check maxRetries).message = healthFailMsg maxRetries :=
  waitHealthyLoop_allFalse check maxRetries hc maxRetries 1

/-! ## Terminal marking of a Deployment row (backend/database/repositories.py
lines 184-249, backend/database/models.py Deployment) -/

/-- The columns of one Deployment row touched by create, mark_success and
mark_failed; a SQL NULL is none, timestamps are naturals. -/
structure DeploymentRow where
  status : String
  startedAt : Option Nat
  completedAt : Option Nat
  durationSeconds : Option Int
  errorMessage : Option String
  deploymentUrl : Option String
deriving DecidableEq

namespace DeploymentRepository

/-- DeploymentRepository.create: a fresh row with status in_progress, the
started_at column default set to now, and the terminal columns NULL. -/
def create (now : Nat) : DeploymentRow :=
  ⟨"in_progress", some now, none, none, none, none⟩

/-- DeploymentRepository.mark_success: sets status, completed_at and the
deployment URL; duration_seconds is now - started_at when started_at is
set, NULL otherwise. -/
def mark_success (now : Nat) (url : Option String) (d : DeploymentRow) : DeploymentRow :=
  { d with status := "success", completedAt := some now,
           durationSeconds := d.startedAt.map (fun s => (now : Int) - (s : Int)),
           deploymentUrl := url }

/-- DeploymentRepository.mark_failed: sets status, completed_at and the
error message; duration_seconds as in mark_success. -/
def mark_failed (now : Nat) (msg : String) (d : DeploymentRow) : DeploymentRow :=
  { d with status := "failed", completedAt := some now,
           durationSeconds := d.startedAt.map (fun s => (now : Int) - (s : Int)),
           errorMessage := some msg }

end DeploymentRepository

/-- A status-mutating repository operation on one Deployment row; the
orchestrator is the only writer and only ever issues these two updates
after creation. -/
inductive RepoOp where
  | markSuccess (now : Nat) (url : Option String)
  | markFailed (now : Nat) (msg : String)
deriving DecidableEq

def applyRepoOp (d : DeploymentRow) : RepoOp → DeploymentRow
  | .markSuccess now url => DeploymentRepository.mark_success now url d
  | .markFailed now msg => DeploymentRepository.mark_failed now msg d

def runRepoOps (d : DeploymentRow) (ops : List RepoOp) : DeploymentRow :=
  ops.foldl applyRepoOp d

/-- Invariant carried through any sequence of repository operations:
started_at stays set, and the terminal columns are set exactly when the
status is terminal. -/
def rowInv (d : DeploymentRow) : Prop :=
  d.startedAt ≠ none ∧
  ((d.completedAt ≠ none ∧ d.durationSeconds ≠ none) ↔
    (d.status = "success" ∨ d.status = "failed"))

theorem rowInv_create (now : Nat) : rowInv (DeploymentRepository.create now) := by
  constructor
  · simp [DeploymentRepository.create]
  · simp [DeploymentRepository.create]

theorem rowInv_apply (d : DeploymentRow) (op : RepoOp) (h : rowInv d) :
    rowInv (applyRepoOp d op) := by
  obtain ⟨h1, -⟩ := h
  obtain ⟨s, hs⟩ : ∃ s, d.startedAt = some s := by
    cases hd : d.startedAt
    · exact absurd hd h1
    · exact ⟨_, rfl⟩
  cases op with
  | markSuccess now url =>
      refine ⟨by simp [applyRepoOp, DeploymentRepository.mark_success, hs], ?_⟩
      simp [applyRepoOp, DeploymentRepository.mark_success, hs]
  | markFailed now msg =>
      refine ⟨by simp [applyRepoOp, DeploymentRepository.mark_failed, hs], ?_⟩
      simp [applyRepoOp, DeploymentRepository.mark_failed, hs]

theorem rowInv_runRepoOps (ops : List RepoOp) :
    ∀ (d : DeploymentRow), rowInv d → rowInv (runRepoOps d ops) := by
  induction ops with
  | nil => intro d h; exact h
  | cons op rest ih =>
      intro d h
      exact ih (applyRepoOp d op) (rowInv_apply d op h)

/-- C6 — completed_at and duration_seconds are set iff the status is
terminal: starting from a freshly created Deployment row and applying any
sequence of mark_success / mark_failed repository operations, both columns
are non-NULL exactly when the status is success or failed; the fresh row
has both unset, and any single terminal marking applied to a reachable
row sets both. -/
theorem deployment_terminal_columns_iff (now0 : Nat) (ops : List RepoOp) :
    (((runRepoOps (DeploymentRepository.create now0) ops).completedAt ≠ none ∧
      (runRepoOps (DeploymentRepository.create now0) ops).durationSeconds ≠ none) ↔
     ((runRepoOps (DeploymentRepository.create now0) ops).status = "success" ∨
      (runRepoOps (DeploymentRepository.create now0) ops).status = "failed"))
    ∧ (DeploymentRepository.create now0).completedAt = none
    ∧ (DeploymentRepository.create now0).durationSeconds = none
    ∧ (DeploymentRepository.create now0).status = "in_progress"
    ∧ (∀ op : RepoOp,
        (applyRepoOp (runRepoOps (DeploymentRepository.create now0) ops) op).completedAt ≠ none ∧
        (applyRepoOp (runRepoOps (DeploymentRepository.create now0) ops) op).durationSeconds ≠ none) := by
  have hinv := rowInv_runRepoOps ops (DeploymentRepository.create now0) (rowInv_create now0)
  refine ⟨hinv.2, by simp [DeploymentRepository.create], by simp [DeploymentRepository.create],
    by simp [DeploymentRepository.create], ?_⟩
  intro op
  have := rowInv_apply _ op hinv
  rcases op with ⟨now, url⟩ | ⟨now, msg⟩
  · exact (this.2).mpr (Or.inl (by simp [applyRepoOp, DeploymentRepository.mark_success]))
  · exact (this.2).mpr (Or.inr (by simp [applyRepoOp, DeploymentRepository.mark_failed]))

/-! ## Short display ids (backend/database/models.py lines 63-69, 269) -/

/-- models._short_id: str(uuid.uuid4())[:8].  The uuid4 draw itself is an
external source of randomness and is modelled as an arbitrary string
argument; a well-formed draw renders in the canonical 36-character
8-4-4-4-12 form. -/
def shortIdOfUuid (u : String) : String := ⟨u.data.take 8⟩

/-- Well-formedness of str(uuid.uuid4()): always 36 characters. -/
def uuidWellFormed (u : String) : Prop := u.length = 36

/-- The identity columns of a Deployment row as defaulted by models.py:
id from one uuid4 draw, short_id from an independent second draw,
truncated to 8 characters.  No uniqueness constraint is declared on the
short_id column. -/
structure DeploymentIdentity where
  id : String
  short_id : String
deriving DecidableEq

/-- models.Deployment column defaults at insert time, given the two
independent uuid4 draws. -/
def newDeploymentIdentity (uId uShort : String) : DeploymentIdentity :=
  ⟨uId, shortIdOfUuid uShort⟩

/-- C9 counterexample — short ids are not guaranteed distinct for distinct
concurrently active deployments: two Deployment rows created from four
well-formed, pairwise independent uuid4 draws have distinct durable ids
but identical short ids, because the two short-id draws share their first
8 characters and nothing constrains the truncation to be unique. -/
theorem short_id_collision_cex :
    (uuidWellFormed "11111111-1111-4111-8111-111111111111" ∧
     uuidWellFormed "aaaaaaaa-0000-4000-8000-000000000000" ∧
     uuidWellFormed "22222222-2222-4222-8222-222222222222" ∧
     uuidWellFormed "aaaaaaaa-ffff-4fff-bfff-ffffffffffff") ∧
    "aaaaaaaa-0000-4000-8000-000000000000" ≠ "aaaaaaaa-ffff-4fff-bfff-ffffffffffff" ∧
    (newDeploymentIdentity "11111111-1111-4111-8111-111111111111"
        "aaaaaaaa-0000-4000-8000-000000000000").id ≠
      (newDeploymentIdentity "22222222-2222-4222-8222-222222222222"
        "aaaaaaaa-ffff-4fff-bfff-ffffffffffff").id ∧
    (newDeploymentIdentity "11111111-1111-4111-8111-111111111111"
        "aaaaaaaa-0000-4000-8000-000000000000").short_id =
      (newDeploymentIdentity "22222222-2222-4222-8222-222222222222"
        "aaaaaaaa-ffff-4fff-bfff-ffffffffffff").short_id := by
  refine ⟨⟨?_, ?_, ?_, ?_⟩, ?_, ?_, ?_⟩ <;>
    first
    | decide
    | (simp only [uuidWellFormed]; decide)

/-- C9 amended — the short display id of every Deployment is exactly 8
characters long (for any well-formed uuid4 draw); distinctness of the
short ids of concurrently active deployments is not guaranteed by the
code, only made probable by the randomness of the draw. -/
theorem short_id_always_eight_chars (u : String) (h : uuidWellFormed u) :
    (shortIdOfUuid u).length = 8 := by
  have hd : u.data.length = 36 := h
  simp [shortIdOfUuid, String.length, hd]

/-- Witness for the amended C9 at a concrete uuid draw. -/
theorem short_id_always_eight_chars_witness :
    (shortIdOfUuid "aaaaaaaa-0000-4000-8000-000000000000").length = 8 :=
  short_id_always_eight_chars "aaaaaaaa-0000-4000-8000-000000000000"
    (by simp only [uuidWellFormed]; decide)

/-! ## Deployment status lookup (deployment_orchestrator.py lines 447-484,
repositories.py lines 201-205) -/

/-- One stored Deployment row as seen by the status query. -/
structure StoredDeployment where
  id : String
  short_id : String
  status : String
  githubUrl : Option String
  deploymentUrl : Option String
  errorMessage : Option String
  durationSeconds : Option Int
deriving DecidableEq

/-- DeploymentRepository.get_by_id: first row whose durable id matches. -/
def get_by_id (depId : String) (db : List StoredDeployment) : Option StoredDeployment :=
  db.find? (fun d => d.id == depId)

/-- DeploymentRepository.get_by_short_id: first row whose short id
matches. -/
def get_by_short_id (shortId : String) (db : List StoredDeployment) : Option StoredDeployment :=
  db.find? (fun d => d.short_id == shortId)

/-- The dictionary get_deployment_status builds from the resolved row
(timestamps and the steps sub-list, derived from the same row, are
elided). -/
structure StatusDict where
  deployment_id : String
  status : String
  github_url : Option String
  url : Option String
  error : Option String
  duration_seconds : Option Int
deriving DecidableEq

def toStatusDict (d : StoredDeployment) : StatusDict :=
  ⟨d.short_id, d.status, d.githubUrl, d.deploymentUrl, d.errorMessage, d.durationSeconds⟩

/-- DeploymentOrchestrator.get_deployment_status: dispatches on the length
of the reference alone — an 8-character reference is resolved against
short ids, any other length against durable ids — and returns None when
the selected resolution finds nothing. -/
def get_deployment_status (ref : String) (db : List StoredDeployment) : Option StatusDict :=
  (if ref.length = 8 then get_by_short_id ref db else get_by_id ref db).map toStatusDict

/-- C10 — the status lookup dispatches on reference length alone: length-8
references resolve only against short ids, all other lengths only against
durable ids; a miss under the selected resolution yields none rather than
an error; consequently the 8-character prefix of a durable id finds
nothing whenever no short id happens to coincide with it. -/
theorem get_deployment_status_dispatch (db : List StoredDeployment) :
    (∀ ref : String, ref.length = 8 →
      get_deployment_status ref db = (get_by_short_id ref db).map toStatusDict)
    ∧ (∀ ref : String, ref.length ≠ 8 →
      get_deployment_status ref db = (get_by_id ref db).map toStatusDict)
    ∧ (∀ ref : String, ref.length = 8 → (∀ d ∈ db, d.short_id ≠ ref) →
      get_deployment_status ref db = none)
    ∧ (∀ ref : String, ref.length ≠ 8 → (∀ d ∈ db, d.id ≠ ref) →
      get_deployment_status ref db = none)
    ∧ (∀ d ∈ db, uuidWellFormed d.id →
      (∀ e ∈ db, e.short_id ≠ shortIdOfUuid d.id) →
      get_deployment_status (shortIdOfUuid d.id) db = none) := by
  refine ⟨?_, ?_, ?_, ?_, ?_⟩
  · intro ref h; simp [get_deployment_status, h]
  · intro ref h; simp [get_deployment_status, h]
  · intro ref h hm
    have : get_by_short_id ref db = none := by
      simp only [get_by_short_id, List.find?_eq_none]
      intro d hd
      simpa using hm d hd
    simp [get_deployment_status, h, this]
  · intro ref h hm
    have : get_by_id ref db = none := by
      simp only [get_by_id, List.find?_eq_none]
      intro d hd
      simpa using hm d hd
    simp [get_deployment_status, h, this]
  · intro d hd hwf hm
    have h8 : (shortIdOfUuid d.id).length = 8 := short_id_always_eight_chars d.id hwf
    have : get_by_short_id (shortIdOfUuid d.id) db = none := by
      simp only [get_by_short_id, List.find?_eq_none]
      intro e he
      simpa using hm e he
    simp [get_deployment_status, h8, this]

/-- Witness for C10 at a concrete store: one deployment whose durable id
is well formed and whose short id differs from the first 8 characters of
that durable id; looking it up by the durable-id prefix returns none. -/
theorem get_deployment_status_dispatch_witness :
    get_deployment_status
        (shortIdOfUuid "11111111-2222-4333-8444-555555555555")
        [⟨"11111111-2222-4333-8444-555555555555", "deadbeef", "success",
          none, none, none, none⟩] = none :=
  (get_deployment_status_dispatch
      [⟨"11111111-2222-4333-8444-555555555555", "deadbeef", "success",
        none, none, none, none⟩]).2.2.2.2
    ⟨"11111111-2222-4333-8444-555555555555", "deadbeef", "success",
      none, none, none, none⟩
    (by simp) (by simp only [uuidWellFormed]; decide)
    (by intro e he; simp at he; subst he; decide)

/-! ## Name helpers (backend/core/utils.py sanitize_name,
repositories.ApplicationRepository._make_slug) -/

/-- Collapse every occurrence of two consecutive dashes, iterated to a
fixpoint: equivalent to the source loop
while "--" in s: s = s.replace("--", "-"), which reduces every maximal
run of dashes to a single dash. -/
def collapseDashes : List Char → List Char
  | [] => []
  | c :: rest =>
    match rest with
    | [] => [c]
    | d :: _ => if c = '-' && d = '-' then collapseDashes rest else c :: collapseDashes rest

/-- Python str.strip("-"): drop dashes from both ends. -/
def stripDashes (l : List Char) : List Char :=
  ((l.dropWhile (fun c => c = '-')).reverse.dropWhile (fun c => c = '-')).reverse

/-- Characters kept by sanitize_name: c.isalnum() or c in "-_". -/
def sanitizeKeep (c : Char) : Bool := c.isAlphanum || c = '-' || c = '_'

/-- utils.sanitize_name: map every other character to a dash, collapse
dash runs, strip outer dashes, lowercase. -/
def sanitize_name (name : String) : String :=
  ⟨(stripDashes (collapseDashes
      (name.data.map (fun c => if sanitizeKeep c then c else '-')))).map Char.toLower⟩

/-- Characters matched by the slug class [a-z0-9] (after lowering). -/
def slugKeep (c : Char) : Bool := (('a' ≤ c && c ≤ 'z') || ('0' ≤ c && c ≤ '9'))

/-- ApplicationRepository._make_slug: lowercase, replace each run outside
[a-z0-9] by one dash (re.sub of the + -quantified class, realised as
char-wise replacement plus run collapsing), strip dashes, defaulting to
"app" when empty. -/
def make_slug (name : String) : String :=
  let core := stripDashes (collapseDashes
    ((name.toLower).data.map (fun c => if slugKeep c then c else '-')))
  if core.isEmpty then "app" else ⟨core⟩

/-- utils.format_deployment_url with the default http protocol. -/
def format_deployment_url (publicIp : String) (port : Nat) : String :=
  s!"http://{publicIp}:{port}"

/-- Python "x or default" for an optional numeric argument: None and 0
are both replaced by the default. -/
def orDefault (x : Option Nat) (d : Nat) : Nat :=
  match x with
  | some v => if v = 0 then d else v
  | none => d

/-! ## Relational store used by the orchestrator (backend/database) -/

/-- tenants table row (the columns the orchestrator touches). -/
structure TenantRec where
  id : Nat
  slug : String
deriving DecidableEq

/-- applications table row.  Durable uuid identities are modelled by a
fresh-id counter (uuid4 draws of full 36-character ids are assumed
collision-free; the 8-character short-id truncation is modelled
separately, see shortIdOfUuid). -/
structure AppRec where
  id : Nat
  tenantId : Nat
  name : String
  slug : String
  githubUrl : String
  containerPort : Nat
  repoName : String
  branch : String
  status : String
  containerName : Option String
  imageName : Option String
  lastDeployedSet : Bool
deriving DecidableEq

/-- deployments table row as written by the orchestrator; timestamps are
tracked only as set/unset flags here (see DeploymentRow for the
arithmetic of duration_seconds). -/
structure DepRec where
  id : Nat
  tenantId : Nat
  applicationId : Nat
  shortId : String
  status : String
  errorMessage : Option String
  startedSet : Bool
  completedSet : Bool
  durationSet : Bool
  deploymentUrl : Option String
deriving DecidableEq

/-- deployment_steps table row. -/
structure StepRec where
  deploymentId : Nat
  stepNumber : Nat
  stepName : String
  status : String
  message : Option String
deriving DecidableEq

/-- deployment_logs table row (insertion ordered). -/
structure LogRec where
  deploymentId : Nat
  level : String
  message : String
deriving DecidableEq

/-- ec2_instances table row. -/
structure Ec2Rec where
  id : Nat
  awsInstanceId : String
  publicIp : String
  status : String
deriving DecidableEq

/-- application_instances mapping row. -/
structure AppInstanceRec where
  applicationId : Nat
  instanceId : Nat
  hostPort : Nat
  status : String
deriving DecidableEq

/-- The store: every list is append-ordered; nextId feeds the fresh-id
modelling of uuid primary keys. -/
structure DB where
  nextId : Nat
  tenants : List TenantRec
  apps : List AppRec
  deps : List DepRec
  steps : List StepRec
  logs : List LogRec
  instances : List Ec2Rec
  appInstances : List AppInstanceRec
deriving DecidableEq

namespace Repo

/-- TenantRepository.get_default: the row with slug "default". -/
def get_default (db : DB) : Option TenantRec :=
  db.tenants.find? (fun t => t.slug == "default")

/-- ApplicationRepository.get_by_github_url. -/
def get_by_github_url (db : DB) (tenantId : Nat) (url : String) : Option AppRec :=
  db.apps.find? (fun a => a.tenantId == tenantId && a.githubUrl == url)

/-- ApplicationRepository.create: slug from the name, de-collided with a
fresh suffix (the uuid4 suffix of the source modelled from the id
counter), then a new row with status from kwargs ("pending" at the
orchestrator call site) and branch "main". -/
def createApp (db : DB) (tenantId : Nat) (name url : String) (containerPort : Nat)
    (repoName : String) : AppRec × DB :=
  let slug0 := make_slug name
  let slug := if (db.apps.find? (fun a => a.tenantId == tenantId && a.slug == slug0)).isSome
    then slug0 ++ "-" ++ toString db.nextId else slug0
  let app : AppRec := ⟨db.nextId, tenantId, name, slug, url, containerPort,
    repoName, "main", "pending", none, none, false⟩
  (app, { db with nextId := db.nextId + 1, apps := db.apps ++ [app] })

/-- ApplicationRepository.get_or_create: reuse the row keyed by
(tenant_id, github_url) when present. -/
def get_or_create (db : DB) (tenantId : Nat) (name url : String) (containerPort : Nat)
    (repoName : String) : AppRec × DB :=
  match get_by_github_url db tenantId url with
  | some a => (a, db)
  | none => createApp db tenantId name url containerPort repoName

/-- DeploymentRepository.create: fresh row, status in_progress,
started_at defaulted, terminal columns unset.  The short id draw is
modelled from the id counter here (see shortIdOfUuid for its
truncation behaviour). -/
def createDep (db : DB) (tenantId applicationId : Nat) : DepRec × DB :=
  let dep : DepRec := ⟨db.nextId, tenantId, applicationId, toString db.nextId,
    "in_progress", none, true, false, false, none⟩
  (dep, { db with nextId := db.nextId + 1, deps := db.deps ++ [dep] })

/-- EC2InstanceRepository.create. -/
def createInstance (db : DB) (awsInstanceId publicIp : String) : Ec2Rec × DB :=
  let inst : Ec2Rec := ⟨db.nextId, awsInstanceId, publicIp, "running"⟩
  (inst, { db with nextId := db.nextId + 1, instances := db.instances ++ [inst] })

/-- EC2InstanceRepository.link_application. -/
def link_application (db : DB) (appId instanceDbId hostPort : Nat) : DB :=
  { db with appInstances := db.appInstances ++ [⟨appId, instanceDbId, hostPort, "active"⟩] }

/-- DeploymentRepository.add_step. -/
def add_step (db : DB) (deploymentId stepNumber : Nat) (stepName status : String)
    (message : Option String) : DB :=
  { db with steps := db.steps ++ [⟨deploymentId, stepNumber, stepName, status, message⟩] }

/-- DeploymentRepository.add_log. -/
def add_log (db : DB) (deploymentId : Nat) (message level : String) : DB :=
  { db with logs := db.logs ++ [⟨deploymentId, level, message⟩] }

/-- DeploymentRepository.mark_success on the stored row: status, terminal
columns (duration only when started_at was set) and the URL. -/
def mark_success (db : DB) (depId : Nat) (url : String) : DB :=
  { db with deps := db.deps.map (fun d =>
      if d.id = depId then
        { d with status := "success", completedSet := true,
                 durationSet := d.startedSet, deploymentUrl := some url }
      else d) }

/-- DeploymentRepository.mark_failed on the stored row. -/
def mark_failed (db : DB) (depId : Nat) (msg : String) : DB :=
  { db with deps := db.deps.map (fun d =>
      if d.id = depId then
        { d with status := "failed", completedSet := true,
                 durationSet := d.startedSet, errorMessage := some msg }
      else d) }

/-- The ad-hoc Application update after the container starts
(deployment_orchestrator.py lines 320-325). -/
def setAppContainer (db : DB) (appId : Nat) (containerName imageName : String) : DB :=
  { db with apps := db.apps.map (fun a =>
      if a.id = appId then
        { a with containerName := some containerName, imageName := some imageName,
                 status := "active" }
      else a) }

/-- ApplicationRepository.update_last_deployed. -/
def update_last_deployed (db : DB) (appId : Nat) : DB :=
  { db with apps := db.apps.map (fun a =>
      if a.id = appId then { a with lastDeployedSet := true } else a) }

end Repo

/-! ## Deployment orchestrator
(backend/services/deployment_orchestrator.py DeploymentOrchestrator.deploy) -/

/-- Orchestrator configuration (backend/config.py fields read by deploy). -/
structure OrchConfig where
  enableNginx : Bool
  healthCheckRetries : Nat
  dockerContainerPort : Nat
  dockerHostPort : Nat
deriving DecidableEq

/-- Outcomes of the external collaborators for one run: validators,
the AWS / Docker / NGINX / GitHub managers and the HTTP health probe.
Each manager call is a black-box capability returning (success, message)
as in the source; the three SSH channels are given by their per-attempt
outcome functions, fed to the connect model. -/
structure CollabEnv where
  validUrl : Bool
  urlError : String
  validCfg : Bool
  cfgErrors : String
  repoName : String
  ec2Ok : Bool
  ec2ErrMsg : String
  instanceId : String
  publicIp : String
  dockerAtt : Nat → AttemptOutcome
  dockerInstallOk : Bool
  dockerInstallMsg : String
  nginxAtt : Nat → AttemptOutcome
  nginxInstallOk : Bool
  nginxInstallMsg : String
  githubAtt : Nat → AttemptOutcome
  cloneOk : Bool
  cloneMsg : String
  repoPath : String
  filesOk : Bool
  missingFiles : List String
  buildOk : Bool
  buildMsg : String
  runOk : Bool
  runMsg : String
  nginxCfgOk : Bool
  nginxCfgMsg : String
  nginxEnableOk : Bool
  nginxEnableMsg : String
  nginxReloadOk : Bool
  nginxReloadMsg : String
  healthCheck : Nat → Bool

/-- The result dictionary deploy returns (timestamps elided; the steps
list holds the progress records appended by update_progress). -/
structure ResultDict where
  deployment_id : Option String
  success : Bool
  github_url : String
  steps : List ProgressEvent
  error : Option String
  instance_id : Option String
  public_ip : Option String
  repo_path : Option String
  image_name : Option String
  container_name : Option String
  port : Option Nat
  url : Option String
  nginx_enabled : Option Bool
deriving DecidableEq

/-- Initial result dictionary built at the top of deploy. -/
def initResult (githubUrl : String) : ResultDict :=
  ⟨none, false, githubUrl, [], none, none, none, none, none, none, none, none, none⟩

/-- Mutable state threaded through one run: the store, the result dict,
the events forwarded to the progress sink (the raw progress_callback), and
a ghost trace of the update_progress invocations together with the
deployment row id the helper saw (none before the record exists). -/
structure RunState where
  db : DB
  result : ResultDict
  sink : List ProgressEvent
  orch : List (ProgressEvent × Option Nat)
deriving DecidableEq

/-- The LogLine that update_progress appends (through
DeploymentRepository.add_log) for one progress record: level ERROR exactly
for status "error", INFO otherwise, message "[step] message". -/
def progressLog (d : Nat) (ev : ProgressEvent) : LogRec :=
  ⟨d, if ev.status == "error" then "ERROR" else "INFO", s!"[{ev.step}] {ev.message}"⟩

/-- The update_progress helper (deployment_orchestrator.py lines 100-120):
appends the record to the result steps, writes one LogLine — only when
the Deployment row exists — then forwards the event to the sink. -/
def update_progress (depId : Option Nat) (st : RunState)
    (step msg status : String) : RunState :=
  let ev : ProgressEvent := ⟨step, msg, status⟩
  { db := match depId with
      | some d => { st.db with logs := st.db.logs ++ [progressLog d ev] }
      | none => st.db
    result := { st.result with steps := st.result.steps ++ [ev] }
    sink := st.sink ++ [ev]
    orch := st.orch ++ [(ev, depId)] }

/-- Data carried to the single failure handler: the state at the raise,
the deployment row id if one exists, the message of the raised fault, and
a ghost record of which persisted step number the failing phase would
have written next (none for faults before the Deployment record). -/
structure FailData where
  st : RunState
  depId : Option Nat
  errMsg : String
  failedStep : Option Nat
deriving DecidableEq

/-- Phase 0 of the try-block (deployment_orchestrator.py lines 92-166):
resolve the default tenant, validate the GitHub URL and the deployment
configuration, resolve or create the Application record and create the
Deployment record, committing both.  Faults here happen before the
Deployment record exists (no failing step number). -/
def validateAndCreate (cfg : OrchConfig) (env : CollabEnv) (githubUrl : String)
    (containerPort : Option Nat) (db0 : DB) :
    Except FailData (RunState × AppRec × DepRec) :=
  let st0 : RunState := ⟨db0, initResult githubUrl, [], []⟩
  match Repo.get_default db0 with
  | none => .error ⟨st0, none,
      "No default tenant found. Run \x27flask init-db\x27 or restart Flask.", none⟩
  | some tenant =>
    let st1 := update_progress none st0 "Validation" "Validating GitHub URL" "in_progress"
    if !env.validUrl then
      .error ⟨st1, none, s!"Invalid GitHub URL: {env.urlError}", none⟩
    else
    let st2 := update_progress none st1 "Validation" "GitHub URL validated" "success"
    let st3 := update_progress none st2 "Validation" "Validating configuration" "in_progress"
    if !env.validCfg then
      .error ⟨st3, none, s!"Invalid configuration: {env.cfgErrors}", none⟩
    else
    let st4 := update_progress none st3 "Validation" "Configuration validated" "success"
    let appDb := Repo.get_or_create st4.db tenant.id (sanitize_name env.repoName)
      githubUrl (orDefault containerPort cfg.dockerContainerPort) env.repoName
    let depDb := Repo.createDep appDb.2 tenant.id appDb.1.id
    .ok ({ st4 with
      db := depDb.2
      result := { st4.result with deployment_id := some depDb.1.shortId } },
      appDb.1, depDb.1)

/-- Step 3 of the try-block (lines 168-197): create the EC2 instance,
record it and its application link, persist Step 1.  The instance_id and
public_ip result fields are set as soon as the provider call returns, so
a later failure triggers the cleanup events. -/
def ec2Phase (env : CollabEnv) (hport appId depId : Nat) (st : RunState) :
    Except FailData RunState :=
  let st7 := update_progress (some depId) st "EC2 Creation" "Creating EC2 instance" "in_progress"
  if !env.ec2Ok then
    .error ⟨st7, some depId, env.ec2ErrMsg, some 1⟩
  else
  let st8 : RunState := { st7 with result := { st7.result with
    instance_id := some env.instanceId, public_ip := some env.publicIp } }
  let instDb := Repo.createInstance st8.db env.instanceId env.publicIp
  let db9 := Repo.link_application instDb.2 appId instDb.1.id hport
  let db10 := Repo.add_step db9 depId 1 "EC2 Instance Created" "success"
    (some s!"id={env.instanceId} ip={env.publicIp}")
  .ok (update_progress (some depId) { st8 with db := db10 }
    "EC2 Creation" s!"Instance {env.instanceId} created" "success")

/-- Step 4 of the try-block (lines 199-221): SSH to the instance and
install Docker, persisting Step 2.  The connect events go to the sink
only: the source hands the raw progress_callback to connect, not
update_progress.  A TimeoutError from connect is re-wrapped as
"SSH connection timeout: ...", every other exception as
"Failed to establish SSH connection: ...". -/
def dockerPhase (env : CollabEnv) (depId : Nat) (st : RunState) :
    Except FailData RunState :=
  let st10 := update_progress (some depId) st "Docker Installation"
    "Waiting for SSH and installing Docker" "in_progress"
  let cr := connect env.dockerAtt 180 5
  let st11 : RunState := { st10 with sink := st10.sink ++ cr.events }
  match cr.outcome with
  | .timeoutRaised _ _ m =>
      .error ⟨st11, some depId, s!"SSH connection timeout: {m}", some 2⟩
  | .authRaised _ m =>
      .error ⟨st11, some depId, s!"Failed to establish SSH connection: {m}", some 2⟩
  | .zeroDivRaised =>
      .error ⟨st11, some depId,
        "Failed to establish SSH connection: division by zero", some 2⟩
  | .fuelExhausted =>
      .error ⟨st11, some depId,
        "Failed to establish SSH connection: fuel exhausted", some 2⟩
  | .connected _ _ =>
  if !env.dockerInstallOk then
    .error ⟨st11, some depId, s!"Failed to install Docker: {env.dockerInstallMsg}", some 2⟩
  else
  let st12 : RunState := { st11 with
    db := Repo.add_step st11.db depId 2 "Docker Installed" "success" none }
  .ok (update_progress (some depId) st12 "Docker Installation" "Docker installed" "success")

/-- Step 4.5 of the try-block (lines 223-244): install NGINX, persisting
Step 3 — only when proxying is enabled; otherwise the state passes
through untouched.  Every connect exception is wrapped as
"SSH for NGINX failed: ...". -/
def nginxInstallPhase (cfg : OrchConfig) (env : CollabEnv) (depId : Nat) (st : RunState) :
    Except FailData RunState :=
  if cfg.enableNginx then
    let stN1 := update_progress (some depId) st "NGINX Installation"
      "Installing NGINX reverse proxy" "in_progress"
    let crN := connect env.nginxAtt 180 5
    let stN2 : RunState := { stN1 with sink := stN1.sink ++ crN.events }
    match crN.outcome with
    | .timeoutRaised _ _ m =>
        .error ⟨stN2, some depId, s!"SSH for NGINX failed: {m}", some 3⟩
    | .authRaised _ m =>
        .error ⟨stN2, some depId, s!"SSH for NGINX failed: {m}", some 3⟩
    | .zeroDivRaised =>
        .error ⟨stN2, some depId, "SSH for NGINX failed: division by zero", some 3⟩
    | .fuelExhausted =>
        .error ⟨stN2, some depId, "SSH for NGINX failed: fuel exhausted", some 3⟩
    | .connected _ _ =>
    if !env.nginxInstallOk then
      .error ⟨stN2, some depId, s!"Failed to install NGINX: {env.nginxInstallMsg}", some 3⟩
    else
    let stN3 : RunState := { stN2 with
      db := Repo.add_step stN2.db depId 3 "NGINX Installed" "success" none }
    .ok (update_progress (some depId) stN3 "NGINX Installation" "NGINX installed" "success")
  else .ok st

/-- Step 5 of the try-block (lines 246-270): SSH for GitHub and clone the
repository, persisting Step 4 with the clone path.  Every connect
exception is wrapped as "SSH for GitHub failed: ...". -/
def clonePhase (env : CollabEnv) (depId : Nat) (st : RunState) :
    Except FailData RunState :=
  let st15 := update_progress (some depId) st "Repository Clone"
    "Cloning GitHub repository" "in_progress"
  let crG := connect env.githubAtt 180 5
  let st16 : RunState := { st15 with sink := st15.sink ++ crG.events }
  match crG.outcome with
  | .timeoutRaised _ _ m =>
      .error ⟨st16, some depId, s!"SSH for GitHub failed: {m}", some 4⟩
  | .authRaised _ m =>
      .error ⟨st16, some depId, s!"SSH for GitHub failed: {m}", some 4⟩
  | .zeroDivRaised =>
      .error ⟨st16, some depId, "SSH for GitHub failed: division by zero", some 4⟩
  | .fuelExhausted =>
      .error ⟨st16, some depId, "SSH for GitHub failed: fuel exhausted", some 4⟩
  | .connected _ _ =>
  if !env.cloneOk then
    .error ⟨st16, some depId, s!"Failed to clone repository: {env.cloneMsg}", some 4⟩
  else
  let st17 : RunState := { st16 with
    result := { st16.result with repo_path := some env.repoPath }
    db := Repo.add_step st16.db depId 4 "Repository Cloned" "success" (some env.repoPath) }
  .ok (update_progress (some depId) st17 "Repository Clone"
    s!"Cloned to {env.repoPath}" "success")

/-- Step 6 of the try-block (lines 272-281): verify the project files,
persisting Step 5; missing files abort before any build. -/
def verifyPhase (env : CollabEnv) (depId : Nat) (st : RunState) :
    Except FailData RunState :=
  let st19 := update_progress (some depId) st "Project Validation"
    "Verifying project structure" "in_progress"
  let missingJoined := String.intercalate ", " env.missingFiles
  if !env.filesOk then
    .error ⟨st19, some depId, s!"Missing required files: {missingJoined}", some 5⟩
  else
  let st20 : RunState := { st19 with
    db := Repo.add_step st19.db depId 5 "Project Structure Verified" "success" none }
  .ok (update_progress (some depId) st20 "Project Validation"
    "Project structure validated" "success")

/-- Step 7 of the try-block (lines 283-296): build the Docker image,
persisting Step 6 with the image name. -/
def buildPhase (env : CollabEnv) (depId : Nat) (imageName : String) (st : RunState) :
    Except FailData RunState :=
  let st22 := update_progress (some depId) st "Docker Build"
    "Building Docker image" "in_progress"
  if !env.buildOk then
    .error ⟨st22, some depId, s!"Failed to build Docker image: {env.buildMsg}", some 6⟩
  else
  let st23 : RunState := { st22 with
    result := { st22.result with image_name := some imageName }
    db := Repo.add_step st22.db depId 6 "Docker Image Built" "success" (some imageName) }
  .ok (update_progress (some depId) st23 "Docker Build"
    s!"Image built: {imageName}" "success")

/-- Step 8 of the try-block (lines 298-330): run the container, update
the Application row with the container details and status active, and
persist Step 7 with the container name. -/
def runPhase (env : CollabEnv) (depId appId : Nat) (imageName : String) (hport : Nat)
    (st : RunState) : Except FailData RunState :=
  let st25 := update_progress (some depId) st "Container Deployment"
    "Starting Docker container" "in_progress"
  let containerName := imageName ++ "-container"
  if !env.runOk then
    .error ⟨st25, some depId, s!"Failed to start container: {env.runMsg}", some 7⟩
  else
  let st26 : RunState := { st25 with
    result := { st25.result with container_name := some containerName, port := some hport }
    db := Repo.add_step (Repo.setAppContainer st25.db appId containerName imageName)
      depId 7 "Container Started" "success" (some containerName) }
  .ok (update_progress (some depId) st26 "Container Deployment"
    s!"Container running: {containerName}" "success")

/-- Step 8.5 of the try-block (lines 332-358): write, enable and reload
the NGINX site, persisting Step 8 — only when proxying is enabled (the
nginx_manager object is non-None exactly when ENABLE_NGINX is set). -/
def nginxConfigPhase (cfg : OrchConfig) (env : CollabEnv) (depId : Nat) (st : RunState) :
    Except FailData RunState :=
  if cfg.enableNginx then
    let stC1 := update_progress (some depId) st "NGINX Configuration"
      "Configuring NGINX reverse proxy" "in_progress"
    if !env.nginxCfgOk then
      .error ⟨stC1, some depId, s!"NGINX config failed: {env.nginxCfgMsg}", some 8⟩
    else if !env.nginxEnableOk then
      .error ⟨stC1, some depId, s!"NGINX enable failed: {env.nginxEnableMsg}", some 8⟩
    else if !env.nginxReloadOk then
      .error ⟨stC1, some depId, s!"NGINX reload failed: {env.nginxReloadMsg}", some 8⟩
    else
    let stC2 : RunState := { stC1 with
      db := Repo.add_step stC1.db depId 8 "NGINX Configured" "success" none }
    .ok (update_progress (some depId) stC2 "NGINX Configuration" "NGINX configured" "success")
  else .ok st

/-- Step 9 of the try-block (lines 360-377): poll health.  A healthy
result persists Step 9 as success; exhausting retries persists Step 9 as
a warning carrying the failure message — it never raises. -/
def healthPhase (cfg : OrchConfig) (env : CollabEnv) (depId : Nat) (st : RunState) : RunState :=
  let st29 := update_progress (some depId) st "Health Check"
    "Performing health checks" "in_progress"
  let hr := wait_for_healthy env.healthCheck cfg.healthCheckRetries
  if hr.healthy then
    update_progress (some depId)
      { st29 with db := Repo.add_step st29.db depId 9 "Health Check Passed" "success" none }
      "Health Check" "Application is healthy" "success"
  else
    update_progress (some depId)
      { st29 with
        db := Repo.add_step st29.db depId 9 "Health Check Warning" "warning"
          (some hr.message) }
      "Health Check" s!"Health check warning: {hr.message}" "warning"

/-- Step 10 of the try-block (lines 379-407): compute the reachable URL
(the proxy when enabled, the direct host:port otherwise), set the result
fields, mark the Deployment success and stamp the Application, then emit
the final Deployment Complete record. -/
def finishPhase (cfg : OrchConfig) (env : CollabEnv) (depId appId hport : Nat)
    (st : RunState) : RunState :=
  let deploymentUrl := if cfg.enableNginx then s!"http://{env.publicIp}/"
    else format_deployment_url env.publicIp hport
  let st31 : RunState := { st with
    result := { st.result with
      url := some deploymentUrl
      nginx_enabled := some cfg.enableNginx
      success := true }
    db := Repo.update_last_deployed
      (Repo.mark_success st.db depId deploymentUrl) appId }
  update_progress (some depId) st31 "Deployment Complete"
    "Application deployed successfully" "success"

/-- The try-block of DeploymentOrchestrator.deploy: the phases above in
source order, each phase committing its rows before the next starts, any
raised fault short-circuiting to the failure handler.  The instance name
defaults from the repo name and the short id; the image name is the
sanitized instance name (computed at the build step in the source, hoisted
here unchanged since it is pure).  Wall-clock effects are not modelled. -/
def deployCore (cfg : OrchConfig) (env : CollabEnv) (githubUrl : String)
    (instanceName : Option String) (containerPort hostPort : Option Nat)
    (db0 : DB) : Except FailData RunState :=
  match validateAndCreate cfg env githubUrl containerPort db0 with
  | .error f => .error f
  | .ok q =>
    let st6 := q.1
    let application := q.2.1
    let dep := q.2.2
    let iname := instanceName.getD s!"autodeploy-{sanitize_name env.repoName}-{dep.shortId}"
    let imageName := sanitize_name iname
    let hport := orDefault hostPort cfg.dockerHostPort
    match ec2Phase env hport application.id dep.id st6 with
    | .error f => .error f
    | .ok st9 =>
    match dockerPhase env dep.id st9 with
    | .error f => .error f
    | .ok st13 =>
    match nginxInstallPhase cfg env dep.id st13 with
    | .error f => .error f
    | .ok st14 =>
    match clonePhase env dep.id st14 with
    | .error f => .error f
    | .ok st18 =>
    match verifyPhase env dep.id st18 with
    | .error f => .error f
    | .ok st21 =>
    match buildPhase env dep.id imageName st21 with
    | .error f => .error f
    | .ok st24 =>
    match runPhase env dep.id application.id imageName hport st24 with
    | .error f => .error f
    | .ok st27 =>
    match nginxConfigPhase cfg env dep.id st27 with
    | .error f => .error f
    | .ok st28 =>
    .ok (finishPhase cfg env dep.id application.id hport (healthPhase cfg env dep.id st28))


structure DeployOutcome where
  result : ResultDict
  db : DB
  sink : List ProgressEvent
  orch : List (ProgressEvent × Option Nat)
  faultMsg : Option String
  failedStep : Option Nat
deriving DecidableEq

/-- The single failure handler (the except-block of deploy, lines
412-438): records the fault message on the result, rolls back any
uncommitted writes (a no-op at the modelled phase granularity), marks the
Deployment failed when a row exists — unless that very persistence write
fails, which is swallowed (markFailedRaises) — and emits the two Cleanup
progress records when an instance id was recorded.  The compute instance
is deliberately left running. -/
def failurePath (markFailedRaises : Bool) (f : FailData) : DeployOutcome :=
  let r1 := { f.st.result with success := false, error := some f.errMsg }
  let db1 := match f.depId with
    | some d => if markFailedRaises then f.st.db else Repo.mark_failed f.st.db d f.errMsg
    | none => f.st.db
  let st1 : RunState := { f.st with result := r1, db := db1 }
  let st2 :=
    if r1.instance_id.isSome then
      update_progress f.depId
        (update_progress f.depId st1 "Cleanup" "Cleaning up failed deployment" "in_progress")
        "Cleanup" "Cleanup noted (instance kept for debugging)" "success"
    else st1
  ⟨st2.result, st2.db, st2.sink, st2.orch, some f.errMsg, f.failedStep⟩

/-- DeploymentOrchestrator.deploy: the try-block, with every raised fault
routed through the single failure handler; a result dictionary is
returned on every input. -/
def deploy (cfg : OrchConfig) (env : CollabEnv) (markFailedRaises : Bool)
    (githubUrl : String) (instanceName : Option String)
    (containerPort hostPort : Option Nat) (db0 : DB) : DeployOutcome :=
  match deployCore cfg env githubUrl instanceName containerPort hostPort db0 with
  | .ok st => ⟨st.result, st.db, st.sink, st.orch, none, none⟩
  | .error f => failurePath markFailedRaises f

/-- The store of a fresh installation: one default tenant, nothing else. -/
def initDB : DB := ⟨1, [⟨0, "default"⟩], [], [], [], [], [], []⟩

/-! ## Run invariants used by the claims -/

/-- The identity-relevant columns of the applications table: primary key,
owning tenant and source URL. -/
def appKeys (l : List AppRec) : List (Nat × Nat × String) :=
  l.map (fun a => (a.id, a.tenantId, a.githubUrl))

/-- The identity-relevant columns of the deployments table: primary key
and owning application. -/
def depKeys (l : List DepRec) : List (Nat × Nat) :=
  l.map (fun d => (d.id, d.applicationId))

/-- The log round-trip invariant: the persisted log is the base log plus
exactly one LogLine per update_progress record that saw a Deployment row,
in emission order. -/
def LogsMatch (st : RunState) (base : List LogRec) : Prop :=
  st.db.logs = base ++ st.orch.filterMap (fun p => p.2.map (fun d => progressLog d p.1))

theorem update_progress_LogsMatch (dI : Option Nat) (st : RunState)
    (s m stt : String) (base : List LogRec) (h : LogsMatch st base) :
    LogsMatch (update_progress dI st s m stt) base := by
  unfold LogsMatch at h ⊢
  cases dI <;> simp [update_progress, List.filterMap_append, h]

/-- Projection bundle for update_progress: everything except the result
steps, the log, the sink and the ghost trace passes through. -/
theorem update_progress_proj (dI : Option Nat) (st : RunState) (s m stt : String) :
    (update_progress dI st s m stt).db.steps = st.db.steps ∧
    (update_progress dI st s m stt).db.deps = st.db.deps ∧
    (update_progress dI st s m stt).db.apps = st.db.apps ∧
    (update_progress dI st s m stt).db.tenants = st.db.tenants ∧
    (update_progress dI st s m stt).db.nextId = st.db.nextId ∧
    (update_progress dI st s m stt).result.success = st.result.success ∧
    (update_progress dI st s m stt).result.error = st.result.error := by
  cases dI <;> simp [update_progress]

/-! Projection lemmas: which tables and result fields each store
operation leaves untouched. -/

@[simp] theorem update_progress_db_steps (dI : Option Nat) (st : RunState) (s m stt : String) :
    (update_progress dI st s m stt).db.steps = st.db.steps := by cases dI <;> rfl

@[simp] theorem update_progress_db_deps (dI : Option Nat) (st : RunState) (s m stt : String) :
    (update_progress dI st s m stt).db.deps = st.db.deps := by cases dI <;> rfl

@[simp] theorem update_progress_db_apps (dI : Option Nat) (st : RunState) (s m stt : String) :
    (update_progress dI st s m stt).db.apps = st.db.apps := by cases dI <;> rfl

@[simp] theorem update_progress_db_tenants (dI : Option Nat) (st : RunState) (s m stt : String) :
    (update_progress dI st s m stt).db.tenants = st.db.tenants := by cases dI <;> rfl

@[simp] theorem update_progress_db_nextId (dI : Option Nat) (st : RunState) (s m stt : String) :
    (update_progress dI st s m stt).db.nextId = st.db.nextId := by cases dI <;> rfl

@[simp] theorem update_progress_result_success (dI : Option Nat) (st : RunState) (s m stt : String) :
    (update_progress dI st s m stt).result.success = st.result.success := by cases dI <;> rfl

@[simp] theorem update_progress_result_error (dI : Option Nat) (st : RunState) (s m stt : String) :
    (update_progress dI st s m stt).result.error = st.result.error := by cases dI <;> rfl

@[simp] theorem update_progress_result_url (dI : Option Nat) (st : RunState) (s m stt : String) :
    (update_progress dI st s m stt).result.url = st.result.url := by cases dI <;> rfl

@[simp] theorem update_progress_result_instance_id (dI : Option Nat) (st : RunState)
    (s m stt : String) :
    (update_progress dI st s m stt).result.instance_id = st.result.instance_id := by
  cases dI <;> rfl

@[simp] theorem update_progress_orch (dI : Option Nat) (st : RunState) (s m stt : String) :
    (update_progress dI st s m stt).orch = st.orch ++ [(⟨s, m, stt⟩, dI)] := by
  cases dI <;> rfl

@[simp] theorem update_progress_sink (dI : Option Nat) (st : RunState) (s m stt : String) :
    (update_progress dI st s m stt).sink = st.sink ++ [⟨s, m, stt⟩] := by
  cases dI <;> rfl

@[simp] theorem update_progress_result_steps (dI : Option Nat) (st : RunState) (s m stt : String) :
    (update_progress dI st s m stt).result.steps = st.result.steps ++ [⟨s, m, stt⟩] := by
  cases dI <;> rfl

@[simp] theorem update_progress_logs_some (d : Nat) (st : RunState) (s m stt : String) :
    (update_progress (some d) st s m stt).db.logs
      = st.db.logs ++ [progressLog d ⟨s, m, stt⟩] := rfl

@[simp] theorem update_progress_logs_none (st : RunState) (s m stt : String) :
    (update_progress none st s m stt).db.logs = st.db.logs := rfl

@[simp] theorem mark_failed_steps (db : DB) (i : Nat) (m : String) :
    (Repo.mark_failed db i m).steps = db.steps := rfl

@[simp] theorem mark_failed_logs (db : DB) (i : Nat) (m : String) :
    (Repo.mark_failed db i m).logs = db.logs := rfl

@[simp] theorem mark_failed_apps (db : DB) (i : Nat) (m : String) :
    (Repo.mark_failed db i m).apps = db.apps := rfl

@[simp] theorem mark_failed_tenants (db : DB) (i : Nat) (m : String) :
    (Repo.mark_failed db i m).tenants = db.tenants := rfl

@[simp] theorem mark_failed_nextId (db : DB) (i : Nat) (m : String) :
    (Repo.mark_failed db i m).nextId = db.nextId := rfl

@[simp] theorem mark_success_steps (db : DB) (i : Nat) (u : String) :
    (Repo.mark_success db i u).steps = db.steps := rfl

@[simp] theorem mark_success_logs (db : DB) (i : Nat) (u : String) :
    (Repo.mark_success db i u).logs = db.logs := rfl

@[simp] theorem mark_success_apps (db : DB) (i : Nat) (u : String) :
    (Repo.mark_success db i u).apps = db.apps := rfl

@[simp] theorem mark_success_tenants (db : DB) (i : Nat) (u : String) :
    (Repo.mark_success db i u).tenants = db.tenants := rfl

@[simp] theorem mark_success_nextId (db : DB) (i : Nat) (u : String) :
    (Repo.mark_success db i u).nextId = db.nextId := rfl

@[simp] theorem setAppContainer_steps (db : DB) (i : Nat) (c im : String) :
    (Repo.setAppContainer db i c im).steps = db.steps := rfl

@[simp] theorem setAppContainer_logs (db : DB) (i : Nat) (c im : String) :
    (Repo.setAppContainer db i c im).logs = db.logs := rfl

@[simp] theorem setAppContainer_deps (db : DB) (i : Nat) (c im : String) :
    (Repo.setAppContainer db i c im).deps = db.deps := rfl

@[simp] theorem setAppContainer_tenants (db : DB) (i : Nat) (c im : String) :
    (Repo.setAppContainer db i c im).tenants = db.tenants := rfl

@[simp] theorem setAppContainer_nextId (db : DB) (i : Nat) (c im : String) :
    (Repo.setAppContainer db i c im).nextId = db.nextId := rfl

@[simp] theorem update_last_deployed_steps (db : DB) (i : Nat) :
    (Repo.update_last_deployed db i).steps = db.steps := rfl

@[simp] theorem update_last_deployed_logs (db : DB) (i : Nat) :
    (Repo.update_last_deployed db i).logs = db.logs := rfl

@[simp] theorem update_last_deployed_deps (db : DB) (i : Nat) :
    (Repo.update_last_deployed db i).deps = db.deps := rfl

@[simp] theorem update_last_deployed_tenants (db : DB) (i : Nat) :
    (Repo.update_last_deployed db i).tenants = db.tenants := rfl

@[simp] theorem update_last_deployed_nextId (db : DB) (i : Nat) :
    (Repo.update_last_deployed db i).nextId = db.nextId := rfl

@[simp] theorem add_step_steps (db : DB) (d n : Nat) (nm stt : String) (m : Option String) :
    (Repo.add_step db d n nm stt m).steps = db.steps ++ [⟨d, n, nm, stt, m⟩] := rfl

@[simp] theorem add_step_logs (db : DB) (d n : Nat) (nm stt : String) (m : Option String) :
    (Repo.add_step db d n nm stt m).logs = db.logs := rfl

@[simp] theorem add_step_deps (db : DB) (d n : Nat) (nm stt : String) (m : Option String) :
    (Repo.add_step db d n nm stt m).deps = db.deps := rfl

@[simp] theorem add_step_apps (db : DB) (d n : Nat) (nm stt : String) (m : Option String) :
    (Repo.add_step db d n nm stt m).apps = db.apps := rfl

@[simp] theorem add_step_tenants (db : DB) (d n : Nat) (nm stt : String) (m : Option String) :
    (Repo.add_step db d n nm stt m).tenants = db.tenants := rfl

@[simp] theorem add_step_nextId (db : DB) (d n : Nat) (nm stt : String) (m : Option String) :
    (Repo.add_step db d n nm stt m).nextId = db.nextId := rfl

/-- List-level key preservation for per-row updates that keep the
identity columns. -/
theorem appKeys_map_keep (l : List AppRec) (f : AppRec → AppRec)
    (hf : ∀ a, (f a).id = a.id ∧ (f a).tenantId = a.tenantId ∧ (f a).githubUrl = a.githubUrl) :
    appKeys (l.map f) = appKeys l := by
  simp only [appKeys, List.map_map]
  apply List.map_congr_left
  intro a _
  simp [Function.comp, (hf a).1, (hf a).2.1, (hf a).2.2]

theorem depKeys_map_keep (l : List DepRec) (f : DepRec → DepRec)
    (hf : ∀ d, (f d).id = d.id ∧ (f d).applicationId = d.applicationId) :
    depKeys (l.map f) = depKeys l := by
  simp only [depKeys, List.map_map]
  apply List.map_congr_left
  intro d _
  simp [Function.comp, (hf d).1, (hf d).2]

/-- A channel whose first attempt succeeds connects immediately: one
attempt, no elapsed time, the initial and the success event. -/
theorem connect_first_success (att : Nat → AttemptOutcome) (maxWait retryInterval : Nat)
    (hm : maxWait ≠ 0) (hr : retryInterval ≠ 0) (h1 : att 1 = .success) :
    connect att maxWait retryInterval =
      ⟨.connected 1 0, [initialSSHEvent, successEvent 0 1]⟩ := by
  obtain ⟨m, rfl⟩ : ∃ m, maxWait = m + 1 := ⟨maxWait - 1, by omega⟩
  rw [connect]
  simp only [hr, if_false]
  rw [show m + 1 + 1 = (m + 1) + 1 from rfl, connectLoop]
  simp [h1, show ¬ (m + 1 ≤ 0) by omega]

/-! ## Per-phase facts: what each phase does and does not touch -/

theorem validateAndCreate_error (cfg : OrchConfig) (env : CollabEnv) (gh : String)
    (cp : Option Nat) (db0 : DB) (fd : FailData)
    (h : validateAndCreate cfg env gh cp db0 = .error fd) :
    fd.failedStep = none ∧ fd.depId = none ∧
    fd.st.db.steps = db0.steps ∧ fd.st.db.deps = db0.deps ∧
    fd.st.db.apps = db0.apps ∧ fd.st.db.tenants = db0.tenants ∧
    fd.st.db.nextId = db0.nextId ∧ fd.st.db.logs = db0.logs ∧
    fd.st.result.success = false ∧ fd.st.result.error = none ∧
    fd.st.result.instance_id = none ∧
    LogsMatch fd.st db0.logs := by
  simp only [validateAndCreate] at h
  repeat' split at h
  all_goals first
    | exact Except.noConfusion h
    | (injection h with h; subst h;
       refine ⟨rfl, rfl, ?_, ?_, ?_, ?_, ?_, ?_, ?_, ?_, ?_, by
           unfold LogsMatch
           simp [update_progress, initResult]⟩ <;>
         simp [update_progress, initResult])

theorem validateAndCreate_ok (cfg : OrchConfig) (env : CollabEnv) (gh : String)
    (cp : Option Nat) (db0 : DB) (q : RunState × AppRec × DepRec)
    (h : validateAndCreate cfg env gh cp db0 = .ok q) :
    q.1.db.steps = db0.steps ∧
    q.1.db.deps = db0.deps ++ [q.2.2] ∧
    q.1.db.tenants = db0.tenants ∧
    q.1.db.logs = db0.logs ∧
    q.2.2.applicationId = q.2.1.id ∧
    q.2.2.status = "in_progress" ∧
    q.2.2.startedSet = true ∧
    q.1.result.success = false ∧ q.1.result.error = none ∧
    q.1.result.instance_id = none ∧
    LogsMatch q.1 db0.logs := by
  simp only [validateAndCreate] at h
  repeat' split at h
  all_goals first
    | exact Except.noConfusion h
    | (injection h with h; subst h;
       refine ⟨?_, ?_, ?_, ?_, ?_, ?_, ?_, ?_, ?_, ?_, by
           unfold LogsMatch
           simp [update_progress, initResult, Repo.get_or_create, Repo.createApp,
             Repo.createDep]
           split <;> simp⟩ <;>
         (simp [update_progress, initResult, Repo.get_or_create, Repo.createApp,
            Repo.createDep]
          try (split <;> simp)))

theorem ec2Phase_error (env : CollabEnv) (hport appId depId : Nat) (st : RunState)
    (fd : FailData) (h : ec2Phase env hport appId depId st = .error fd) :
    fd.failedStep = some 1 ∧ fd.depId = some depId ∧
    fd.st.db.steps = st.db.steps ∧ fd.st.db.deps = st.db.deps ∧
    fd.st.db.apps = st.db.apps ∧ fd.st.db.tenants = st.db.tenants ∧
    fd.st.db.nextId = st.db.nextId ∧
    fd.st.result.success = st.result.success ∧
    fd.st.result.error = st.result.error ∧
    (∀ base, LogsMatch st base → LogsMatch fd.st base) := by
  simp only [ec2Phase] at h
  repeat' split at h
  all_goals first
    | exact Except.noConfusion h
    | (injection h with h; subst h;
       refine ⟨rfl, rfl, ?_, ?_, ?_, ?_, ?_, ?_, ?_, fun base hb => by
           unfold LogsMatch at hb ⊢
           simp [update_progress, List.filterMap_append, hb]⟩ <;>
         simp [update_progress])

theorem ec2Phase_ok (env : CollabEnv) (hport appId depId : Nat) (st st2 : RunState)
    (h : ec2Phase env hport appId depId st = .ok st2) :
    st2.db.steps = st.db.steps ++
      [⟨depId, 1, "EC2 Instance Created", "success",
        some s!"id={env.instanceId} ip={env.publicIp}"⟩] ∧
    st2.db.deps = st.db.deps ∧
    st2.db.apps = st.db.apps ∧
    st2.db.tenants = st.db.tenants ∧
    st.db.nextId ≤ st2.db.nextId ∧
    st2.result.success = st.result.success ∧
    st2.result.error = st.result.error ∧
    (∀ base, LogsMatch st base → LogsMatch st2 base) := by
  simp only [ec2Phase] at h
  repeat' split at h
  all_goals first
    | exact Except.noConfusion h
    | (injection h with h; subst h;
       refine ⟨?_, ?_, ?_, ?_, ?_, ?_, ?_, fun base hb => by
           unfold LogsMatch at hb ⊢
           simp [update_progress, Repo.add_step, Repo.link_application, Repo.createInstance,
             List.filterMap_append, hb]⟩ <;>
         simp [update_progress, Repo.add_step, Repo.link_application, Repo.createInstance])

theorem dockerPhase_error (env : CollabEnv) (depId : Nat) (st : RunState)
    (fd : FailData) (h : dockerPhase env depId st = .error fd) :
    fd.failedStep = some 2 ∧ fd.depId = some depId ∧
    fd.st.db.steps = st.db.steps ∧ fd.st.db.deps = st.db.deps ∧
    fd.st.db.apps = st.db.apps ∧ fd.st.db.tenants = st.db.tenants ∧
    fd.st.db.nextId = st.db.nextId ∧
    fd.st.result.success = st.result.success ∧
    fd.st.result.error = st.result.error ∧
    (∀ base, LogsMatch st base → LogsMatch fd.st base) := by
  simp only [dockerPhase] at h
  repeat' split at h
  all_goals first
    | exact Except.noConfusion h
    | (injection h with h; subst h;
       refine ⟨rfl, rfl, ?_, ?_, ?_, ?_, ?_, ?_, ?_, fun base hb => by
           unfold LogsMatch at hb ⊢
           simp [update_progress, List.filterMap_append, hb]⟩ <;>
         simp [update_progress])

theorem dockerPhase_ok (env : CollabEnv) (depId : Nat) (st st2 : RunState)
    (h : dockerPhase env depId st = .ok st2) :
    st2.db.steps = st.db.steps ++ [⟨depId, 2, "Docker Installed", "success", none⟩] ∧
    st2.db.deps = st.db.deps ∧
    st2.db.apps = st.db.apps ∧
    st2.db.tenants = st.db.tenants ∧
    st.db.nextId ≤ st2.db.nextId ∧
    st2.result.success = st.result.success ∧
    st2.result.error = st.result.error ∧
    (∀ base, LogsMatch st base → LogsMatch st2 base) := by
  simp only [dockerPhase] at h
  repeat' split at h
  all_goals first
    | exact Except.noConfusion h
    | (injection h with h; subst h;
       refine ⟨?_, ?_, ?_, ?_, ?_, ?_, ?_, fun base hb => by
           unfold LogsMatch at hb ⊢
           simp [update_progress, Repo.add_step, List.filterMap_append, hb]⟩ <;>
         simp [update_progress, Repo.add_step])

theorem nginxInstallPhase_error (cfg : OrchConfig) (env : CollabEnv) (depId : Nat)
    (st : RunState) (fd : FailData) (h : nginxInstallPhase cfg env depId st = .error fd) :
    fd.failedStep = some 3 ∧ fd.depId = some depId ∧
    fd.st.db.steps = st.db.steps ∧ fd.st.db.deps = st.db.deps ∧
    fd.st.db.apps = st.db.apps ∧ fd.st.db.tenants = st.db.tenants ∧
    fd.st.db.nextId = st.db.nextId ∧
    fd.st.result.success = st.result.success ∧
    fd.st.result.error = st.result.error ∧
    (∀ base, LogsMatch st base → LogsMatch fd.st base) := by
  simp only [nginxInstallPhase] at h
  repeat' split at h
  all_goals first
    | exact Except.noConfusion h
    | (injection h with h; subst h;
       refine ⟨rfl, rfl, ?_, ?_, ?_, ?_, ?_, ?_, ?_, fun base hb => by
           unfold LogsMatch at hb ⊢
           simp [update_progress, List.filterMap_append, hb]⟩ <;>
         simp [update_progress])

theorem nginxInstallPhase_ok (cfg : OrchConfig) (env : CollabEnv) (depId : Nat)
    (st st2 : RunState) (h : nginxInstallPhase cfg env depId st = .ok st2) :
    st2.db.steps = st.db.steps ++
      (if cfg.enableNginx then [⟨depId, 3, "NGINX Installed", "success", none⟩] else []) ∧
    st2.db.deps = st.db.deps ∧
    st2.db.apps = st.db.apps ∧
    st2.db.tenants = st.db.tenants ∧
    st.db.nextId ≤ st2.db.nextId ∧
    st2.result.success = st.result.success ∧
    st2.result.error = st.result.error ∧
    (∀ base, LogsMatch st base → LogsMatch st2 base) := by
  simp only [nginxInstallPhase] at h
  repeat' split at h
  all_goals first
    | exact Except.noConfusion h
    | (injection h with h; subst h;
       refine ⟨?_, ?_, ?_, ?_, ?_, ?_, ?_, fun base hb => by
           unfold LogsMatch at hb ⊢
           simp_all [update_progress, Repo.add_step, List.filterMap_append]⟩ <;>
         simp_all [update_progress, Repo.add_step])

theorem clonePhase_error (env : CollabEnv) (depId : Nat) (st : RunState)
    (fd : FailData) (h : clonePhase env depId st = .error fd) :
    fd.failedStep = some 4 ∧ fd.depId = some depId ∧
    fd.st.db.steps = st.db.steps ∧ fd.st.db.deps = st.db.deps ∧
    fd.st.db.apps = st.db.apps ∧ fd.st.db.tenants = st.db.tenants ∧
    fd.st.db.nextId = st.db.nextId ∧
    fd.st.result.success = st.result.success ∧
    fd.st.result.error = st.result.error ∧
    (∀ base, LogsMatch st base → LogsMatch fd.st base) := by
  simp only [clonePhase] at h
  repeat' split at h
  all_goals first
    | exact Except.noConfusion h
    | (injection h with h; subst h;
       refine ⟨rfl, rfl, ?_, ?_, ?_, ?_, ?_, ?_, ?_, fun base hb => by
           unfold LogsMatch at hb ⊢
           simp [update_progress, List.filterMap_append, hb]⟩ <;>
         simp [update_progress])

theorem clonePhase_ok (env : CollabEnv) (depId : Nat) (st st2 : RunState)
    (h : clonePhase env depId st = .ok st2) :
    st2.db.steps = st.db.steps ++
      [⟨depId, 4, "Repository Cloned", "success", some env.repoPath⟩] ∧
    st2.db.deps = st.db.deps ∧
    st2.db.apps = st.db.apps ∧
    st2.db.tenants = st.db.tenants ∧
    st.db.nextId ≤ st2.db.nextId ∧
    st2.result.success = st.result.success ∧
    st2.result.error = st.result.error ∧
    (∀ base, LogsMatch st base → LogsMatch st2 base) := by
  simp only [clonePhase] at h
  repeat' split at h
  all_goals first
    | exact Except.noConfusion h
    | (injection h with h; subst h;
       refine ⟨?_, ?_, ?_, ?_, ?_, ?_, ?_, fun base hb => by
           unfold LogsMatch at hb ⊢
           simp [update_progress, Repo.add_step, List.filterMap_append, hb]⟩ <;>
         simp [update_progress, Repo.add_step])

theorem verifyPhase_error (env : CollabEnv) (depId : Nat) (st : RunState)
    (fd : FailData) (h : verifyPhase env depId st = .error fd) :
    fd.failedStep = some 5 ∧ fd.depId = some depId ∧
    fd.st.db.steps = st.db.steps ∧ fd.st.db.deps = st.db.deps ∧
    fd.st.db.apps = st.db.apps ∧ fd.st.db.tenants = st.db.tenants ∧
    fd.st.db.nextId = st.db.nextId ∧
    fd.st.result.success = st.result.success ∧
    fd.st.result.error = st.result.error ∧
    (∀ base, LogsMatch st base → LogsMatch fd.st base) := by
  simp only [verifyPhase] at h
  repeat' split at h
  all_goals first
    | exact Except.noConfusion h
    | (injection h with h; subst h;
       refine ⟨rfl, rfl, ?_, ?_, ?_, ?_, ?_, ?_, ?_, fun base hb => by
           unfold LogsMatch at hb ⊢
           simp [update_progress, List.filterMap_append, hb]⟩ <;>
         simp [update_progress])

theorem verifyPhase_ok (env : CollabEnv) (depId : Nat) (st st2 : RunState)
    (h : verifyPhase env depId st = .ok st2) :
    st2.db.steps = st.db.steps ++
      [⟨depId, 5, "Project Structure Verified", "success", none⟩] ∧
    st2.db.deps = st.db.deps ∧
    st2.db.apps = st.db.apps ∧
    st2.db.tenants = st.db.tenants ∧
    st.db.nextId ≤ st2.db.nextId ∧
    st2.result.success = st.result.success ∧
    st2.result.error = st.result.error ∧
    (∀ base, LogsMatch st base → LogsMatch st2 base) := by
  simp only [verifyPhase] at h
  repeat' split at h
  all_goals first
    | exact Except.noConfusion h
    | (injection h with h; subst h;
       refine ⟨?_, ?_, ?_, ?_, ?_, ?_, ?_, fun base hb => by
           unfold LogsMatch at hb ⊢
           simp [update_progress, Repo.add_step, List.filterMap_append, hb]⟩ <;>
         simp [update_progress, Repo.add_step])

theorem buildPhase_error (env : CollabEnv) (depId : Nat) (imageName : String)
    (st : RunState) (fd : FailData) (h : buildPhase env depId imageName st = .error fd) :
    fd.failedStep = some 6 ∧ fd.depId = some depId ∧
    fd.st.db.steps = st.db.steps ∧ fd.st.db.deps = st.db.deps ∧
    fd.st.db.apps = st.db.apps ∧ fd.st.db.tenants = st.db.tenants ∧
    fd.st.db.nextId = st.db.nextId ∧
    fd.st.result.success = st.result.success ∧
    fd.st.result.error = st.result.error ∧
    (∀ base, LogsMatch st base → LogsMatch fd.st base) := by
  simp only [buildPhase] at h
  repeat' split at h
  all_goals first
    | exact Except.noConfusion h
    | (injection h with h; subst h;
       refine ⟨rfl, rfl, ?_, ?_, ?_, ?_, ?_, ?_, ?_, fun base hb => by
           unfold LogsMatch at hb ⊢
           simp [update_progress, List.filterMap_append, hb]⟩ <;>
         simp [update_progress])

theorem buildPhase_ok (env : CollabEnv) (depId : Nat) (imageName : String)
    (st st2 : RunState) (h : buildPhase env depId imageName st = .ok st2) :
    st2.db.steps = st.db.steps ++
      [⟨depId, 6, "Docker Image Built", "success", some imageName⟩] ∧
    st2.db.deps = st.db.deps ∧
    st2.db.apps = st.db.apps ∧
    st2.db.tenants = st.db.tenants ∧
    st.db.nextId ≤ st2.db.nextId ∧
    st2.result.success = st.result.success ∧
    st2.result.error = st.result.error ∧
    (∀ base, LogsMatch st base → LogsMatch st2 base) := by
  simp only [buildPhase] at h
  repeat' split at h
  all_goals first
    | exact Except.noConfusion h
    | (injection h with h; subst h;
       refine ⟨?_, ?_, ?_, ?_, ?_, ?_, ?_, fun base hb => by
           unfold LogsMatch at hb ⊢
           simp [update_progress, Repo.add_step, List.filterMap_append, hb]⟩ <;>
         simp [update_progress, Repo.add_step])

@[simp] theorem appKeys_setAppContainer (db : DB) (appId : Nat) (c i : String) :
    appKeys (Repo.setAppContainer db appId c i).apps = appKeys db.apps := by
  apply appKeys_map_keep
  intro a
  by_cases ha : a.id = appId <;> simp [ha]

@[simp] theorem appKeys_update_last_deployed (db : DB) (appId : Nat) :
    appKeys (Repo.update_last_deployed db appId).apps = appKeys db.apps := by
  apply appKeys_map_keep
  intro a
  by_cases ha : a.id = appId <;> simp [ha]

@[simp] theorem depKeys_mark_success (db : DB) (depId : Nat) (url : String) :
    depKeys (Repo.mark_success db depId url).deps = depKeys db.deps := by
  apply depKeys_map_keep
  intro d
  by_cases hd : d.id = depId <;> simp [hd]

@[simp] theorem depKeys_mark_failed (db : DB) (depId : Nat) (msg : String) :
    depKeys (Repo.mark_failed db depId msg).deps = depKeys db.deps := by
  apply depKeys_map_keep
  intro d
  by_cases hd : d.id = depId <;> simp [hd]

theorem runPhase_error (env : CollabEnv) (depId appId : Nat) (imageName : String)
    (hport : Nat) (st : RunState) (fd : FailData)
    (h : runPhase env depId appId imageName hport st = .error fd) :
    fd.failedStep = some 7 ∧ fd.depId = some depId ∧
    fd.st.db.steps = st.db.steps ∧ fd.st.db.deps = st.db.deps ∧
    fd.st.db.apps = st.db.apps ∧ fd.st.db.tenants = st.db.tenants ∧
    fd.st.db.nextId = st.db.nextId ∧
    fd.st.result.success = st.result.success ∧
    fd.st.result.error = st.result.error ∧
    (∀ base, LogsMatch st base → LogsMatch fd.st base) := by
  simp only [runPhase] at h
  repeat' split at h
  all_goals first
    | exact Except.noConfusion h
    | (injection h with h; subst h;
       refine ⟨rfl, rfl, ?_, ?_, ?_, ?_, ?_, ?_, ?_, fun base hb => by
           unfold LogsMatch at hb ⊢
           simp [update_progress, List.filterMap_append, hb]⟩ <;>
         simp [update_progress])

theorem runPhase_ok (env : CollabEnv) (depId appId : Nat) (imageName : String)
    (hport : Nat) (st st2 : RunState)
    (h : runPhase env depId appId imageName hport st = .ok st2) :
    st2.db.steps = st.db.steps ++
      [⟨depId, 7, "Container Started", "success", some (imageName ++ "-container")⟩] ∧
    st2.db.deps = st.db.deps ∧
    appKeys st2.db.apps = appKeys st.db.apps ∧
    st2.db.tenants = st.db.tenants ∧
    st.db.nextId ≤ st2.db.nextId ∧
    st2.result.success = st.result.success ∧
    st2.result.error = st.result.error ∧
    (∀ base, LogsMatch st base → LogsMatch st2 base) := by
  simp only [runPhase] at h
  repeat' split at h
  all_goals first
    | exact Except.noConfusion h
    | (injection h with h; subst h;
       refine ⟨?_, ?_, ?_, ?_, ?_, ?_, ?_, fun base hb => by
           unfold LogsMatch at hb ⊢
           simp [List.filterMap_append, hb]⟩ <;>
         simp)

theorem nginxConfigPhase_error (cfg : OrchConfig) (env : CollabEnv) (depId : Nat)
    (st : RunState) (fd : FailData) (h : nginxConfigPhase cfg env depId st = .error fd) :
    fd.failedStep = some 8 ∧ fd.depId = some depId ∧
    fd.st.db.steps = st.db.steps ∧ fd.st.db.deps = st.db.deps ∧
    fd.st.db.apps = st.db.apps ∧ fd.st.db.tenants = st.db.tenants ∧
    fd.st.db.nextId = st.db.nextId ∧
    fd.st.result.success = st.result.success ∧
    fd.st.result.error = st.result.error ∧
    (∀ base, LogsMatch st base → LogsMatch fd.st base) := by
  simp only [nginxConfigPhase] at h
  repeat' split at h
  all_goals first
    | exact Except.noConfusion h
    | (injection h with h; subst h;
       refine ⟨rfl, rfl, ?_, ?_, ?_, ?_, ?_, ?_, ?_, fun base hb => by
           unfold LogsMatch at hb ⊢
           simp [update_progress, List.filterMap_append, hb]⟩ <;>
         simp [update_progress])

theorem nginxConfigPhase_ok (cfg : OrchConfig) (env : CollabEnv) (depId : Nat)
    (st st2 : RunState) (h : nginxConfigPhase cfg env depId st = .ok st2) :
    st2.db.steps = st.db.steps ++
      (if cfg.enableNginx then [⟨depId, 8, "NGINX Configured", "success", none⟩] else []) ∧
    st2.db.deps = st.db.deps ∧
    st2.db.apps = st.db.apps ∧
    st2.db.tenants = st.db.tenants ∧
    st.db.nextId ≤ st2.db.nextId ∧
    st2.result.success = st.result.success ∧
    st2.result.error = st.result.error ∧
    (∀ base, LogsMatch st base → LogsMatch st2 base) := by
  simp only [nginxConfigPhase] at h
  repeat' split at h
  all_goals first
    | exact Except.noConfusion h
    | (injection h with h; subst h;
       refine ⟨?_, ?_, ?_, ?_, ?_, ?_, ?_, fun base hb => by
           unfold LogsMatch at hb ⊢
           simp_all [update_progress, Repo.add_step, List.filterMap_append]⟩ <;>
         simp_all [update_progress, Repo.add_step])

theorem healthPhase_facts (cfg : OrchConfig) (env : CollabEnv) (depId : Nat)
    (st : RunState) :
    (healthPhase cfg env depId st).db.steps = st.db.steps ++
      [if (wait_for_healthy env.healthCheck cfg.healthCheckRetries).healthy then
        ⟨depId, 9, "Health Check Passed", "success", none⟩
       else
        ⟨depId, 9, "Health Check Warning", "warning",
          some (wait_for_healthy env.healthCheck cfg.healthCheckRetries).message⟩] ∧
    (healthPhase cfg env depId st).db.deps = st.db.deps ∧
    (healthPhase cfg env depId st).db.apps = st.db.apps ∧
    (healthPhase cfg env depId st).db.tenants = st.db.tenants ∧
    st.db.nextId ≤ (healthPhase cfg env depId st).db.nextId ∧
    (healthPhase cfg env depId st).result.success = st.result.success ∧
    (healthPhase cfg env depId st).result.error = st.result.error ∧
    (∀ base, LogsMatch st base → LogsMatch (healthPhase cfg env depId st) base) := by
  by_cases hh : (wait_for_healthy env.healthCheck cfg.healthCheckRetries).healthy
  all_goals
    refine ⟨?_, ?_, ?_, ?_, ?_, ?_, ?_, fun base hb => by
        unfold LogsMatch at hb ⊢
        simp [healthPhase, hh, update_progress, Repo.add_step, List.filterMap_append, hb]⟩ <;>
      simp [healthPhase, hh, update_progress, Repo.add_step]

theorem finishPhase_facts (cfg : OrchConfig) (env : CollabEnv) (depId appId hport : Nat)
    (st : RunState) :
    (finishPhase cfg env depId appId hport st).result.success = true ∧
    (finishPhase cfg env depId appId hport st).result.error = st.result.error ∧
    (finishPhase cfg env depId appId hport st).result.url =
      some (if cfg.enableNginx then s!"http://{env.publicIp}/"
        else format_deployment_url env.publicIp hport) ∧
    (finishPhase cfg env depId appId hport st).db.steps = st.db.steps ∧
    (finishPhase cfg env depId appId hport st).db.deps = st.db.deps.map (fun d =>
      if d.id = depId then
        { d with status := "success", completedSet := true, durationSet := d.startedSet,
                 deploymentUrl := some (if cfg.enableNginx then s!"http://{env.publicIp}/"
                   else format_deployment_url env.publicIp hport) }
      else d) ∧
    depKeys (finishPhase cfg env depId appId hport st).db.deps = depKeys st.db.deps ∧
    appKeys (finishPhase cfg env depId appId hport st).db.apps = appKeys st.db.apps ∧
    (finishPhase cfg env depId appId hport st).db.tenants = st.db.tenants ∧
    st.db.nextId ≤ (finishPhase cfg env depId appId hport st).db.nextId ∧
    (∀ base, LogsMatch st base → LogsMatch (finishPhase cfg env depId appId hport st) base) := by
  refine ⟨?_, ?_, ?_, ?_, ?d5, ?_, ?_, ?_, ?_, fun base hb => by
      unfold LogsMatch at hb ⊢
      simp [finishPhase, List.filterMap_append, hb]⟩
  case d5 => simp [finishPhase, Repo.mark_success, Repo.update_last_deployed]
  all_goals simp [finishPhase]

theorem failurePath_facts (b : Bool) (f : FailData) :
    (failurePath b f).result.success = false ∧
    (failurePath b f).result.error = some f.errMsg ∧
    (failurePath b f).faultMsg = some f.errMsg ∧
    (failurePath b f).failedStep = f.failedStep ∧
    (failurePath b f).db.steps = f.st.db.steps ∧
    depKeys (failurePath b f).db.deps = depKeys f.st.db.deps ∧
    appKeys (failurePath b f).db.apps = appKeys f.st.db.apps ∧
    (failurePath b f).db.tenants = f.st.db.tenants ∧
    f.st.db.nextId ≤ (failurePath b f).db.nextId ∧
    (∀ base, LogsMatch f.st base →
      (failurePath b f).db.logs = base ++
        (failurePath b f).orch.filterMap (fun p => p.2.map (fun d => progressLog d p.1))) := by
  unfold failurePath
  cases hd : f.depId <;> cases b <;>
    by_cases hi : f.st.result.instance_id.isSome <;>
    refine ⟨?_, ?_, ?_, ?_, ?_, ?_, ?_, ?_, ?_, fun base hb => by
        unfold LogsMatch at hb
        simp [hi, List.filterMap_append, hb]⟩ <;>
    simp [hi]

/-! ## Sequencing the middle phases -/

/-- Sequential composition of two fallible phases, exactly the
short-circuiting shape of the try-block. -/
def seqPhase (φ ψ : RunState → Except FailData RunState) :
    RunState → Except FailData RunState :=
  fun st =>
    match φ st with
    | .error f => .error f
    | .ok st2 => ψ st2

/-- A phase segment covering persisted step numbers lo..hi: on failure it
reports a failing step number in range having persisted only success
steps with smaller numbers in range, and on success it has appended only
success steps with numbers in range; either way it leaves the deployments,
applications (their keys), tenants and the result status/error alone, is
monotone on the id counter, and keeps the log in lockstep with the ghost
progress trace. -/
def GoodSeg (φ : RunState → Except FailData RunState) (lo hi : Nat) : Prop :=
  (∀ st fd, φ st = .error fd →
    (∃ m, fd.failedStep = some m ∧ lo ≤ m ∧ m ≤ hi ∧
      (∀ s, s ∈ fd.st.db.steps → s ∈ st.db.steps ∨
        (lo ≤ s.stepNumber ∧ s.stepNumber < m ∧ s.status = "success"))) ∧
    fd.st.db.deps = st.db.deps ∧
    appKeys fd.st.db.apps = appKeys st.db.apps ∧
    fd.st.db.tenants = st.db.tenants ∧
    st.db.nextId ≤ fd.st.db.nextId ∧
    fd.st.result.success = st.result.success ∧
    fd.st.result.error = st.result.error ∧
    (∀ base, LogsMatch st base → LogsMatch fd.st base))
  ∧
  (∀ st st2, φ st = .ok st2 →
    (∀ s, s ∈ st2.db.steps → s ∈ st.db.steps ∨
      (lo ≤ s.stepNumber ∧ s.stepNumber ≤ hi ∧ s.status = "success")) ∧
    st2.db.deps = st.db.deps ∧
    appKeys st2.db.apps = appKeys st.db.apps ∧
    st2.db.tenants = st.db.tenants ∧
    st.db.nextId ≤ st2.db.nextId ∧
    st2.result.success = st.result.success ∧
    st2.result.error = st.result.error ∧
    (∀ base, LogsMatch st base → LogsMatch st2 base))

/-- Two good segments with adjacent number ranges compose. -/
theorem GoodSeg.seq {φ ψ : RunState → Except FailData RunState} {lo mid hi : Nat}
    (hφ : GoodSeg φ lo mid) (hψ : GoodSeg ψ (mid + 1) hi)
    (hlo : lo ≤ mid + 1) (hhi : mid ≤ hi) :
    GoodSeg (seqPhase φ ψ) lo hi := by
  obtain ⟨hφe, hφo⟩ := hφ
  obtain ⟨hψe, hψo⟩ := hψ
  constructor
  · intro st fd h
    unfold seqPhase at h
    cases hst : φ st with
    | error f =>
        rw [hst] at h
        injection h with h
        subst h
        obtain ⟨⟨m, hm1, hm2, hm3, hm4⟩, hdeps, happs, hten, hnext, hsucc, herr, hlog⟩ :=
          hφe st _ hst
        exact ⟨⟨m, hm1, hm2, by omega, fun s hs => by
          rcases hm4 s hs with h1 | h2
          · exact Or.inl h1
          · exact Or.inr ⟨h2.1, h2.2.1, h2.2.2⟩⟩,
          hdeps, happs, hten, hnext, hsucc, herr, hlog⟩
    | ok stm =>
        rw [hst] at h
        obtain ⟨hsteps1, hdeps1, happs1, hten1, hnext1, hsucc1, herr1, hlog1⟩ :=
          hφo st stm hst
        obtain ⟨⟨m, hm1, hm2, hm3, hm4⟩, hdeps2, happs2, hten2, hnext2, hsucc2, herr2, hlog2⟩ :=
          hψe stm fd h
        refine ⟨⟨m, hm1, by omega, hm3, fun s hs => ?_⟩,
          hdeps2.trans hdeps1, happs2.trans happs1, hten2.trans hten1,
          le_trans hnext1 hnext2, hsucc2.trans hsucc1, herr2.trans herr1,
          fun base hb => hlog2 base (hlog1 base hb)⟩
        rcases hm4 s hs with h1 | h2
        · rcases hsteps1 s h1 with h3 | h4
          · exact Or.inl h3
          · exact Or.inr ⟨h4.1, by omega, h4.2.2⟩
        · exact Or.inr ⟨by omega, h2.2.1, h2.2.2⟩
  · intro st st2 h
    unfold seqPhase at h
    cases hst : φ st with
    | error f => rw [hst] at h; exact Except.noConfusion h
    | ok stm =>
        rw [hst] at h
        obtain ⟨hsteps1, hdeps1, happs1, hten1, hnext1, hsucc1, herr1, hlog1⟩ :=
          hφo st stm hst
        obtain ⟨hsteps2, hdeps2, happs2, hten2, hnext2, hsucc2, herr2, hlog2⟩ :=
          hψo stm st2 h
        refine ⟨fun s hs => ?_, hdeps2.trans hdeps1, happs2.trans happs1,
          hten2.trans hten1, le_trans hnext1 hnext2, hsucc2.trans hsucc1,
          herr2.trans herr1, fun base hb => hlog2 base (hlog1 base hb)⟩
        rcases hsteps2 s hs with h1 | h2
        · rcases hsteps1 s h1 with h3 | h4
          · exact Or.inl h3
          · exact Or.inr ⟨h4.1, by omega, h4.2.2⟩
        · exact Or.inr ⟨by omega, by omega, h2.2.2⟩

theorem ec2Phase_seg (env : CollabEnv) (hport appId depId : Nat) :
    GoodSeg (ec2Phase env hport appId depId) 1 1 := by
  constructor
  · intro st fd h
    obtain ⟨h1, h2, h3, h4, h5, h6, h7, h8, h9, h10⟩ := ec2Phase_error env hport appId depId st fd h
    exact ⟨⟨1, h1, le_refl 1, le_refl 1, fun s hs => Or.inl (h3 ▸ hs)⟩,
      h4, by rw [h5], h6, le_of_eq h7.symm, h8, h9, h10⟩
  · intro st st2 h
    obtain ⟨h1, h2, h3, h4, h5, h6, h7, h8⟩ := ec2Phase_ok env hport appId depId st st2 h
    refine ⟨fun s hs => ?_, h2, by rw [h3], h4, h5, h6, h7, h8⟩
    rw [h1] at hs
    rcases List.mem_append.mp hs with h9 | h9
    · exact Or.inl h9
    · simp at h9
      subst h9
      exact Or.inr ⟨le_refl 1, le_refl 1, rfl⟩

theorem dockerPhase_seg (env : CollabEnv) (depId : Nat) :
    GoodSeg (dockerPhase env depId) 2 2 := by
  constructor
  · intro st fd h
    obtain ⟨h1, h2, h3, h4, h5, h6, h7, h8, h9, h10⟩ := dockerPhase_error env depId st fd h
    exact ⟨⟨2, h1, le_refl 2, le_refl 2, fun s hs => Or.inl (h3 ▸ hs)⟩,
      h4, by rw [h5], h6, le_of_eq h7.symm, h8, h9, h10⟩
  · intro st st2 h
    obtain ⟨h1, h2, h3, h4, h5, h6, h7, h8⟩ := dockerPhase_ok env depId st st2 h
    refine ⟨fun s hs => ?_, h2, by rw [h3], h4, h5, h6, h7, h8⟩
    rw [h1] at hs
    rcases List.mem_append.mp hs with h9 | h9
    · exact Or.inl h9
    · simp at h9
      subst h9
      exact Or.inr ⟨le_refl 2, le_refl 2, rfl⟩

theorem nginxInstallPhase_seg (cfg : OrchConfig) (env : CollabEnv) (depId : Nat) :
    GoodSeg (nginxInstallPhase cfg env depId) 3 3 := by
  constructor
  · intro st fd h
    obtain ⟨h1, h2, h3, h4, h5, h6, h7, h8, h9, h10⟩ :=
      nginxInstallPhase_error cfg env depId st fd h
    exact ⟨⟨3, h1, le_refl 3, le_refl 3, fun s hs => Or.inl (h3 ▸ hs)⟩,
      h4, by rw [h5], h6, le_of_eq h7.symm, h8, h9, h10⟩
  · intro st st2 h
    obtain ⟨h1, h2, h3, h4, h5, h6, h7, h8⟩ := nginxInstallPhase_ok cfg env depId st st2 h
    refine ⟨fun s hs => ?_, h2, by rw [h3], h4, h5, h6, h7, h8⟩
    rw [h1] at hs
    rcases List.mem_append.mp hs with h9 | h9
    · exact Or.inl h9
    · split at h9 <;> simp at h9
      subst h9
      exact Or.inr ⟨le_refl 3, le_refl 3, rfl⟩

theorem clonePhase_seg (env : CollabEnv) (depId : Nat) :
    GoodSeg (clonePhase env depId) 4 4 := by
  constructor
  · intro st fd h
    obtain ⟨h1, h2, h3, h4, h5, h6, h7, h8, h9, h10⟩ := clonePhase_error env depId st fd h
    exact ⟨⟨4, h1, le_refl 4, le_refl 4, fun s hs => Or.inl (h3 ▸ hs)⟩,
      h4, by rw [h5], h6, le_of_eq h7.symm, h8, h9, h10⟩
  · intro st st2 h
    obtain ⟨h1, h2, h3, h4, h5, h6, h7, h8⟩ := clonePhase_ok env depId st st2 h
    refine ⟨fun s hs => ?_, h2, by rw [h3], h4, h5, h6, h7, h8⟩
    rw [h1] at hs
    rcases List.mem_append.mp hs with h9 | h9
    · exact Or.inl h9
    · simp at h9
      subst h9
      exact Or.inr ⟨le_refl 4, le_refl 4, rfl⟩

theorem verifyPhase_seg (env : CollabEnv) (depId : Nat) :
    GoodSeg (verifyPhase env depId) 5 5 := by
  constructor
  · intro st fd h
    obtain ⟨h1, h2, h3, h4, h5, h6, h7, h8, h9, h10⟩ := verifyPhase_error env depId st fd h
    exact ⟨⟨5, h1, le_refl 5, le_refl 5, fun s hs => Or.inl (h3 ▸ hs)⟩,
      h4, by rw [h5], h6, le_of_eq h7.symm, h8, h9, h10⟩
  · intro st st2 h
    obtain ⟨h1, h2, h3, h4, h5, h6, h7, h8⟩ := verifyPhase_ok env depId st st2 h
    refine ⟨fun s hs => ?_, h2, by rw [h3], h4, h5, h6, h7, h8⟩
    rw [h1] at hs
    rcases List.mem_append.mp hs with h9 | h9
    · exact Or.inl h9
    · simp at h9
      subst h9
      exact Or.inr ⟨le_refl 5, le_refl 5, rfl⟩

theorem buildPhase_seg (env : CollabEnv) (depId : Nat) (imageName : String) :
    GoodSeg (buildPhase env depId imageName) 6 6 := by
  constructor
  · intro st fd h
    obtain ⟨h1, h2, h3, h4, h5, h6, h7, h8, h9, h10⟩ :=
      buildPhase_error env depId imageName st fd h
    exact ⟨⟨6, h1, le_refl 6, le_refl 6, fun s hs => Or.inl (h3 ▸ hs)⟩,
      h4, by rw [h5], h6, le_of_eq h7.symm, h8, h9, h10⟩
  · intro st st2 h
    obtain ⟨h1, h2, h3, h4, h5, h6, h7, h8⟩ := buildPhase_ok env depId imageName st st2 h
    refine ⟨fun s hs => ?_, h2, by rw [h3], h4, h5, h6, h7, h8⟩
    rw [h1] at hs
    rcases List.mem_append.mp hs with h9 | h9
    · exact Or.inl h9
    · simp at h9
      subst h9
      exact Or.inr ⟨le_refl 6, le_refl 6, rfl⟩

theorem runPhase_seg (env : CollabEnv) (depId appId : Nat) (imageName : String)
    (hport : Nat) : GoodSeg (runPhase env depId appId imageName hport) 7 7 := by
  constructor
  · intro st fd h
    obtain ⟨h1, h2, h3, h4, h5, h6, h7, h8, h9, h10⟩ :=
      runPhase_error env depId appId imageName hport st fd h
    exact ⟨⟨7, h1, le_refl 7, le_refl 7, fun s hs => Or.inl (h3 ▸ hs)⟩,
      h4, by rw [h5], h6, le_of_eq h7.symm, h8, h9, h10⟩
  · intro st st2 h
    obtain ⟨h1, h2, h3, h4, h5, h6, h7, h8⟩ :=
      runPhase_ok env depId appId imageName hport st st2 h
    refine ⟨fun s hs => ?_, h2, h3, h4, h5, h6, h7, h8⟩
    rw [h1] at hs
    rcases List.mem_append.mp hs with h9 | h9
    · exact Or.inl h9
    · simp at h9
      subst h9
      exact Or.inr ⟨le_refl 7, le_refl 7, rfl⟩

theorem nginxConfigPhase_seg (cfg : OrchConfig) (env : CollabEnv) (depId : Nat) :
    GoodSeg (nginxConfigPhase cfg env depId) 8 8 := by
  constructor
  · intro st fd h
    obtain ⟨h1, h2, h3, h4, h5, h6, h7, h8, h9, h10⟩ :=
      nginxConfigPhase_error cfg env depId st fd h
    exact ⟨⟨8, h1, le_refl 8, le_refl 8, fun s hs => Or.inl (h3 ▸ hs)⟩,
      h4, by rw [h5], h6, le_of_eq h7.symm, h8, h9, h10⟩
  · intro st st2 h
    obtain ⟨h1, h2, h3, h4, h5, h6, h7, h8⟩ := nginxConfigPhase_ok cfg env depId st st2 h
    refine ⟨fun s hs => ?_, h2, by rw [h3], h4, h5, h6, h7, h8⟩
    rw [h1] at hs
    rcases List.mem_append.mp hs with h9 | h9
    · exact Or.inl h9
    · split at h9 <;> simp at h9
      subst h9
      exact Or.inr ⟨le_refl 8, le_refl 8, rfl⟩

/-- The middle of the try-block, Steps 1 through 8, as one segment. -/
def middlePhases (cfg : OrchConfig) (env : CollabEnv) (hport appId depId : Nat)
    (imageName : String) : RunState → Except FailData RunState :=
  seqPhase (ec2Phase env hport appId depId)
    (seqPhase (dockerPhase env depId)
      (seqPhase (nginxInstallPhase cfg env depId)
        (seqPhase (clonePhase env depId)
          (seqPhase (verifyPhase env depId)
            (seqPhase (buildPhase env depId imageName)
              (seqPhase (runPhase env depId appId imageName hport)
                (nginxConfigPhase cfg env depId)))))))

theorem middlePhases_seg (cfg : OrchConfig) (env : CollabEnv) (hport appId depId : Nat)
    (imageName : String) :
    GoodSeg (middlePhases cfg env hport appId depId imageName) 1 8 := by
  unfold middlePhases
  refine GoodSeg.seq (ec2Phase_seg env hport appId depId) ?_ (by omega) (by omega)
  refine GoodSeg.seq (dockerPhase_seg env depId) ?_ (by omega) (by omega)
  refine GoodSeg.seq (nginxInstallPhase_seg cfg env depId) ?_ (by omega) (by omega)
  refine GoodSeg.seq (clonePhase_seg env depId) ?_ (by omega) (by omega)
  refine GoodSeg.seq (verifyPhase_seg env depId) ?_ (by omega) (by omega)
  refine GoodSeg.seq (buildPhase_seg env depId imageName) ?_ (by omega) (by omega)
  exact GoodSeg.seq (runPhase_seg env depId appId imageName hport)
    (nginxConfigPhase_seg cfg env depId) (by omega) (by omega)

/-- deployCore is the validate/create preamble, then the middle segment,
then the health and finish phases, in the short-circuiting shape. -/
theorem deployCore_eq_chain (cfg : OrchConfig) (env : CollabEnv) (gh : String)
    (iname : Option String) (cp hp : Option Nat) (db0 : DB) :
    deployCore cfg env gh iname cp hp db0 =
      match validateAndCreate cfg env gh cp db0 with
      | .error f => .error f
      | .ok q =>
        Except.map
          (fun st => finishPhase cfg env q.2.2.id q.2.1.id (orDefault hp cfg.dockerHostPort)
            (healthPhase cfg env q.2.2.id st))
          (middlePhases cfg env (orDefault hp cfg.dockerHostPort) q.2.1.id q.2.2.id
            (sanitize_name (iname.getD
              s!"autodeploy-{sanitize_name env.repoName}-{q.2.2.shortId}"))
            q.1) := by
  cases hv : validateAndCreate cfg env gh cp db0 with
  | error f => simp [deployCore, hv]
  | ok q =>
    simp only [deployCore, middlePhases, seqPhase, hv, Except.map]
    repeat' (first | rfl | split)
    all_goals simp_all

/-- Faults out of the try-block: the failing step number, the persisted
steps at the fault, and the log round-trip. -/
theorem deployCore_error_facts (cfg : OrchConfig) (env : CollabEnv) (gh : String)
    (iname : Option String) (cp hp : Option Nat) (db0 : DB) (fd : FailData)
    (h : deployCore cfg env gh iname cp hp db0 = .error fd) :
    (fd.failedStep = none → fd.st.db.steps = db0.steps) ∧
    (∀ N, fd.failedStep = some N →
      ∀ s, s ∈ fd.st.db.steps → s ∈ db0.steps ∨
        (s.stepNumber < N ∧ s.status = "success")) ∧
    LogsMatch fd.st db0.logs := by
  rw [deployCore_eq_chain] at h
  cases hv : validateAndCreate cfg env gh cp db0 with
  | error f =>
      rw [hv] at h
      injection h with h
      subst h
      obtain ⟨h1, h2, h3, h4, h5, h6, h7, h8, h9, h10, h11, h12⟩ :=
        validateAndCreate_error cfg env gh cp db0 _ hv
      exact ⟨fun _ => h3, fun N hN => by rw [h1] at hN; exact Option.noConfusion hN, h12⟩
  | ok q =>
      simp only [hv] at h
      obtain ⟨hsteps, hdeps, hten, hlogs, happ, hstat, hstart, hsucc, herr, hinst, hlm⟩ :=
        validateAndCreate_ok cfg env gh cp db0 q hv
      cases hm : middlePhases cfg env (orDefault hp cfg.dockerHostPort) q.2.1.id q.2.2.id
          (sanitize_name (iname.getD
            s!"autodeploy-{sanitize_name env.repoName}-{q.2.2.shortId}")) q.1 with
      | ok st28 =>
          rw [hm] at h
          simp only [Except.map] at h
          exact Except.noConfusion h
      | error f =>
          rw [hm] at h
          simp only [Except.map] at h
          injection h with h
          subst h
          obtain ⟨⟨m, hm1, hm2, hm3, hm4⟩, _, _, _, _, _, _, hmlog⟩ :=
            (middlePhases_seg cfg env (orDefault hp cfg.dockerHostPort) q.2.1.id q.2.2.id
              (sanitize_name (iname.getD
                s!"autodeploy-{sanitize_name env.repoName}-{q.2.2.shortId}"))).1 q.1 _ hm
          refine ⟨fun hnone => by rw [hm1] at hnone; exact Option.noConfusion hnone,
            fun N hN => ?_, hmlog db0.logs (hlogs ▸ hlm)⟩
          rw [hm1] at hN
          injection hN with hN
          subst hN
          intro s hs
          rcases hm4 s hs with h1 | h2
          · exact Or.inl (hsteps ▸ h1)
          · exact Or.inr ⟨h2.2.1, h2.2.2⟩

/-- A run that leaves the try-block normally has a successful result
with no error and the log round-trip intact. -/
theorem deployCore_ok_facts (cfg : OrchConfig) (env : CollabEnv) (gh : String)
    (iname : Option String) (cp hp : Option Nat) (db0 : DB) (st : RunState)
    (h : deployCore cfg env gh iname cp hp db0 = .ok st) :
    st.result.success = true ∧ st.result.error = none ∧ LogsMatch st db0.logs := by
  rw [deployCore_eq_chain] at h
  cases hv : validateAndCreate cfg env gh cp db0 with
  | error f => rw [hv] at h; exact Except.noConfusion h
  | ok q =>
      simp only [hv] at h
      obtain ⟨hsteps, hdeps, hten, hlogs, happ, hstat, hstart, hsucc, herr, hinst, hlm⟩ :=
        validateAndCreate_ok cfg env gh cp db0 q hv
      cases hm : middlePhases cfg env (orDefault hp cfg.dockerHostPort) q.2.1.id q.2.2.id
          (sanitize_name (iname.getD
            s!"autodeploy-{sanitize_name env.repoName}-{q.2.2.shortId}")) q.1 with
      | error f =>
          rw [hm] at h
          simp only [Except.map] at h
          exact Except.noConfusion h
      | ok st28 =>
          rw [hm] at h
          simp only [Except.map] at h
          injection h with h
          subst h
          obtain ⟨_, _, _, _, _, hmsucc, hmerr, hmlog⟩ :=
            (middlePhases_seg cfg env (orDefault hp cfg.dockerHostPort) q.2.1.id q.2.2.id
              (sanitize_name (iname.getD
                s!"autodeploy-{sanitize_name env.repoName}-{q.2.2.shortId}"))).2 q.1 st28 hm
          obtain ⟨_, _, _, _, _, hhsucc, hherr, hhlog⟩ :=
            healthPhase_facts cfg env q.2.2.id st28
          obtain ⟨hfsucc, hferr, _, _, _, _, _, _, _, hflog⟩ :=
            finishPhase_facts cfg env q.2.2.id q.2.1.id (orDefault hp cfg.dockerHostPort)
              (healthPhase cfg env q.2.2.id st28)
          refine ⟨hfsucc, ?_, ?_⟩
          · rw [hferr, hherr, hmerr, herr]
          · exact hflog db0.logs (hhlog db0.logs (hmlog db0.logs (hlogs ▸ hlm)))

/-- The result dictionary built by the failure handler does not depend on
whether the failure bookkeeping write itself fails. -/
theorem failurePath_result_flag (f : FailData) :
    (failurePath true f).result = (failurePath false f).result := by
  unfold failurePath
  cases f.depId <;>
    by_cases hi : f.st.result.instance_id.isSome <;>
    simp [hi, update_progress]

/-! ## Conditions under which each phase succeeds -/

theorem validateAndCreate_ok_of (cfg : OrchConfig) (env : CollabEnv) (gh : String)
    (cp : Option Nat) (db0 : DB) (t : TenantRec)
    (hv : env.validUrl = true) (hc : env.validCfg = true)
    (ht : Repo.get_default db0 = some t) :
    ∃ q, validateAndCreate cfg env gh cp db0 = .ok q := by
  cases h : validateAndCreate cfg env gh cp db0 with
  | ok q => exact ⟨q, rfl⟩
  | error fd => simp [validateAndCreate, hv, hc, ht] at h

theorem ec2Phase_ok_of (env : CollabEnv) (hport appId depId : Nat) (st : RunState)
    (he : env.ec2Ok = true) :
    ∃ st2, ec2Phase env hport appId depId st = .ok st2 := by
  cases h : ec2Phase env hport appId depId st with
  | ok st2 => exact ⟨st2, rfl⟩
  | error fd => simp [ec2Phase, he] at h

theorem dockerPhase_ok_of (env : CollabEnv) (depId : Nat) (st : RunState)
    (hatt : env.dockerAtt 1 = .success) (hin : env.dockerInstallOk = true) :
    ∃ st2, dockerPhase env depId st = .ok st2 := by
  cases h : dockerPhase env depId st with
  | ok st2 => exact ⟨st2, rfl⟩
  | error fd =>
      simp [dockerPhase,
        connect_first_success env.dockerAtt 180 5 (by omega) (by omega) hatt, hin] at h

theorem nginxInstallPhase_ok_of (cfg : OrchConfig) (env : CollabEnv) (depId : Nat)
    (st : RunState)
    (hatt : cfg.enableNginx = true → env.nginxAtt 1 = .success)
    (hin : cfg.enableNginx = true → env.nginxInstallOk = true) :
    ∃ st2, nginxInstallPhase cfg env depId st = .ok st2 := by
  cases h : nginxInstallPhase cfg env depId st with
  | ok st2 => exact ⟨st2, rfl⟩
  | error fd =>
      by_cases hN : cfg.enableNginx = true
      · simp [nginxInstallPhase, hN,
          connect_first_success env.nginxAtt 180 5 (by omega) (by omega) (hatt hN),
          hin hN] at h
      · simp [nginxInstallPhase, hN] at h

theorem clonePhase_ok_of (env : CollabEnv) (depId : Nat) (st : RunState)
    (hatt : env.githubAtt 1 = .success) (hcl : env.cloneOk = true) :
    ∃ st2, clonePhase env depId st = .ok st2 := by
  cases h : clonePhase env depId st with
  | ok st2 => exact ⟨st2, rfl⟩
  | error fd =>
      simp [clonePhase,
        connect_first_success env.githubAtt 180 5 (by omega) (by omega) hatt, hcl] at h

theorem verifyPhase_ok_of (env : CollabEnv) (depId : Nat) (st : RunState)
    (hf : env.filesOk = true) :
    ∃ st2, verifyPhase env depId st = .ok st2 := by
  cases h : verifyPhase env depId st with
  | ok st2 => exact ⟨st2, rfl⟩
  | error fd => simp [verifyPhase, hf] at h

theorem buildPhase_ok_of (env : CollabEnv) (depId : Nat) (imageName : String)
    (st : RunState) (hb : env.buildOk = true) :
    ∃ st2, buildPhase env depId imageName st = .ok st2 := by
  cases h : buildPhase env depId imageName st with
  | ok st2 => exact ⟨st2, rfl⟩
  | error fd => simp [buildPhase, hb] at h

theorem runPhase_ok_of (env : CollabEnv) (depId appId : Nat) (imageName : String)
    (hport : Nat) (st : RunState) (hr : env.runOk = true) :
    ∃ st2, runPhase env depId appId imageName hport st = .ok st2 := by
  cases h : runPhase env depId appId imageName hport st with
  | ok st2 => exact ⟨st2, rfl⟩
  | error fd => simp [runPhase, hr] at h

theorem nginxConfigPhase_ok_of (cfg : OrchConfig) (env : CollabEnv) (depId : Nat)
    (st : RunState)
    (h1 : cfg.enableNginx = true → env.nginxCfgOk = true)
    (h2 : cfg.enableNginx = true → env.nginxEnableOk = true)
    (h3 : cfg.enableNginx = true → env.nginxReloadOk = true) :
    ∃ st2, nginxConfigPhase cfg env depId st = .ok st2 := by
  cases h : nginxConfigPhase cfg env depId st with
  | ok st2 => exact ⟨st2, rfl⟩
  | error fd =>
      by_cases hN : cfg.enableNginx = true
      · simp [nginxConfigPhase, hN, h1 hN, h2 hN, h3 hN] at h
      · simp [nginxConfigPhase, hN] at h

theorem middlePhases_ok_of (cfg : OrchConfig) (env : CollabEnv) (hport appId depId : Nat)
    (imageName : String) (st : RunState)
    (he : env.ec2Ok = true)
    (hd1 : env.dockerAtt 1 = .success) (hd2 : env.dockerInstallOk = true)
    (hn1 : cfg.enableNginx = true → env.nginxAtt 1 = .success)
    (hn2 : cfg.enableNginx = true → env.nginxInstallOk = true)
    (hg1 : env.githubAtt 1 = .success) (hg2 : env.cloneOk = true)
    (hfk : env.filesOk = true) (hbk : env.buildOk = true) (hrk : env.runOk = true)
    (hn3 : cfg.enableNginx = true → env.nginxCfgOk = true)
    (hn4 : cfg.enableNginx = true → env.nginxEnableOk = true)
    (hn5 : cfg.enableNginx = true → env.nginxReloadOk = true) :
    ∃ st28, middlePhases cfg env hport appId depId imageName st = .ok st28 := by
  obtain ⟨s1, h1⟩ := ec2Phase_ok_of env hport appId depId st he
  obtain ⟨s2, h2⟩ := dockerPhase_ok_of env depId s1 hd1 hd2
  obtain ⟨s3, h3⟩ := nginxInstallPhase_ok_of cfg env depId s2 hn1 hn2
  obtain ⟨s4, h4⟩ := clonePhase_ok_of env depId s3 hg1 hg2
  obtain ⟨s5, h5⟩ := verifyPhase_ok_of env depId s4 hfk
  obtain ⟨s6, h6⟩ := buildPhase_ok_of env depId imageName s5 hbk
  obtain ⟨s7, h7⟩ := runPhase_ok_of env depId appId imageName hport s6 hrk
  obtain ⟨s8, h8⟩ := nginxConfigPhase_ok_of cfg env depId s7 hn3 hn4 hn5
  refine ⟨s8, ?_⟩
  unfold middlePhases seqPhase
  simp only [h1, h2, h3, h4, h5, h6, h7, h8]

/-! ## Concrete collaborator environments for witnesses -/

/-- A configuration without the NGINX proxy, default ports, 5 health
retries. -/
def demoCfg : OrchConfig := ⟨false, 5, 8000, 8000⟩

/-- Collaborators that all succeed on the first try. -/
def demoEnv : CollabEnv :=
  ⟨true, "", true, "", "repo", true, "", "i-abc", "1.2.3.4",
   fun _ => .success, true, "",
   fun _ => .success, true, "",
   fun _ => .success, true, "", "/home/ubuntu/repo",
   true, [], true, "", true, "",
   true, "", true, "", true, "",
   fun _ => true⟩

/-! ## Claim theorems over the orchestrator -/

/-- C1 — for every deployment run that fails at step N (over a fresh
store, with or without NGINX, for any collaborator outcomes and any
failure-bookkeeping behaviour), every Step row persisted for that
deployment has a step number strictly below N — so none with a number
greater than N, and none numbered N — and carries status success (the
warning status can only ever appear on the health step, number 9, which
never precedes a failure). -/
theorem deploy_failure_persists_only_prior_steps (cfg : OrchConfig) (env : CollabEnv)
    (b : Bool) (gh : String) (iname : Option String) (cp hp : Option Nat) (N : Nat)
    (h : (deploy cfg env b gh iname cp hp initDB).failedStep = some N) :
    ∀ s ∈ (deploy cfg env b gh iname cp hp initDB).db.steps,
      s.stepNumber < N ∧ (s.status = "success" ∨ (s.stepNumber = 9 ∧ s.status = "warning")) := by
  intro s hs
  unfold deploy at h hs
  cases hc : deployCore cfg env gh iname cp hp initDB with
  | ok st =>
      simp only [hc] at h
      exact Option.noConfusion h
  | error fd =>
      simp only [hc] at h hs
      obtain ⟨f1, f2, f3, f4, f5, f6, f7, f8, f9, f10⟩ := failurePath_facts b fd
      obtain ⟨e1, e2, e3⟩ := deployCore_error_facts cfg env gh iname cp hp initDB fd hc
      rw [f4] at h
      rw [f5] at hs
      rcases e2 N h s hs with h1 | h2
      · exact absurd h1 (by simp [initDB])
      · exact ⟨h2.1, Or.inl h2.2⟩

/-- Witness for C1: Docker installation fails, so the run fails at step 2;
the one persisted step row is number 1 with status success, and the claim
instantiated at that row holds. -/
theorem deploy_failure_persists_only_prior_steps_witness :
    (⟨2, 1, "EC2 Instance Created", "success", some "id=i-abc ip=1.2.3.4"⟩ : StepRec).stepNumber < 2
    ∧ ((⟨2, 1, "EC2 Instance Created", "success", some "id=i-abc ip=1.2.3.4"⟩ : StepRec).status = "success"
       ∨ ((⟨2, 1, "EC2 Instance Created", "success", some "id=i-abc ip=1.2.3.4"⟩ : StepRec).stepNumber = 9
          ∧ (⟨2, 1, "EC2 Instance Created", "success", some "id=i-abc ip=1.2.3.4"⟩ : StepRec).status = "warning")) :=
  deploy_failure_persists_only_prior_steps demoCfg
    { demoEnv with dockerInstallOk := false } false "u" none none none 2 (by decide)
    ⟨2, 1, "EC2 Instance Created", "success", some "id=i-abc ip=1.2.3.4"⟩ (by decide)

/-- C5 — deploy always returns a result dictionary (it is a total
function of the collaborator outcomes): the success flag is false exactly
when a deployment-domain fault was raised, the error field carries
exactly that fault message, and — even when persisting the failure record
itself fails (markFailedRaises) — the returned result, its error field
included, is unchanged: the persistence error is swallowed and never
overrides the original fault. -/
theorem deploy_always_returns_result (cfg : OrchConfig) (env : CollabEnv) (b : Bool)
    (gh : String) (iname : Option String) (cp hp : Option Nat) (db0 : DB) :
    ((deploy cfg env b gh iname cp hp db0).result.success = false ↔
      (deploy cfg env b gh iname cp hp db0).faultMsg ≠ none) ∧
    (deploy cfg env b gh iname cp hp db0).result.error
      = (deploy cfg env b gh iname cp hp db0).faultMsg ∧
    (deploy cfg env true gh iname cp hp db0).result
      = (deploy cfg env false gh iname cp hp db0).result := by
  unfold deploy
  cases hc : deployCore cfg env gh iname cp hp db0 with
  | ok st =>
      obtain ⟨o1, o2, -⟩ := deployCore_ok_facts cfg env gh iname cp hp db0 st hc
      simp [o1, o2]
  | error fd =>
      obtain ⟨f1, f2, f3, -⟩ := failurePath_facts b fd
      obtain ⟨g1, g2, g3, -⟩ := failurePath_facts true fd
      simp only []
      refine ⟨?_, ?_, failurePath_result_flag fd⟩
      · rw [f1, f3]; simp
      · rw [f2, f3]

/-- C8 (amended) — every progress record issued through the
orchestrator's update_progress helper while the Deployment row exists
corresponds to exactly one persisted LogLine, in the same relative order,
with message "[step] message" and level ERROR exactly for error status
(see progressLog); records issued before the Deployment row exists, and
the SSH-connection events that the managers send straight to the progress
sink, are never written to the log. -/
theorem deploy_logs_roundtrip_amended (cfg : OrchConfig) (env : CollabEnv) (b : Bool)
    (gh : String) (iname : Option String) (cp hp : Option Nat) (db0 : DB) :
    (deploy cfg env b gh iname cp hp db0).db.logs =
      db0.logs ++ (deploy cfg env b gh iname cp hp db0).orch.filterMap
        (fun p => p.2.map (fun d => progressLog d p.1)) := by
  unfold deploy
  cases hc : deployCore cfg env gh iname cp hp db0 with
  | ok st =>
      have := (deployCore_ok_facts cfg env gh iname cp hp db0 st hc).2.2
      unfold LogsMatch at this
      simpa using this
  | error fd =>
      exact (failurePath_facts b fd).2.2.2.2.2.2.2.2.2 db0.logs
        (deployCore_error_facts cfg env gh iname cp hp db0 fd hc).2.2

/-- C8 counterexample — the unamended round-trip is false: when URL
validation fails, one progress event reaches the sink (and the result
steps) before any Deployment row exists, and zero LogLines are persisted,
so the events in the sink do not correspond one-to-one with LogLines. -/
theorem progress_log_roundtrip_cex :
    (deploy demoCfg { demoEnv with validUrl := false, urlError := "bad" } false "u"
        none none none initDB).sink.length = 1 ∧
    (deploy demoCfg { demoEnv with validUrl := false, urlError := "bad" } false "u"
        none none none initDB).db.logs.length = 0 ∧
    ¬ ((deploy demoCfg { demoEnv with validUrl := false, urlError := "bad" } false "u"
          none none none initDB).db.logs.map (fun l => (l.level, l.message)) =
       (deploy demoCfg { demoEnv with validUrl := false, urlError := "bad" } false "u"
          none none none initDB).sink.map (fun e =>
            ((if e.status == "error" then "ERROR" else "INFO"), s!"[{e.step}] {e.message}"))) := by
  refine ⟨?_, ?_, ?_⟩ <;> decide

/-- C2 — a run that reaches the health phase and never becomes healthy
(wait_for_healthy exhausts every attempt) is still marked success: the
result reports success with a URL, no fault is raised and no failing
step exists, the stored Deployment row has status success with the
completion and duration columns set and a URL, and the single persisted
Step for the health phase (number 9) has status warning carrying the
health-failure message. -/
theorem deploy_unhealthy_still_success (cfg : OrchConfig) (env : CollabEnv) (b : Bool)
    (gh : String) (iname : Option String) (cp hp : Option Nat)
    (hv : env.validUrl = true) (hc : env.validCfg = true)
    (he : env.ec2Ok = true)
    (hd1 : env.dockerAtt 1 = .success) (hd2 : env.dockerInstallOk = true)
    (hn1 : cfg.enableNginx = true → env.nginxAtt 1 = .success)
    (hn2 : cfg.enableNginx = true → env.nginxInstallOk = true)
    (hg1 : env.githubAtt 1 = .success) (hg2 : env.cloneOk = true)
    (hfk : env.filesOk = true) (hbk : env.buildOk = true) (hrk : env.runOk = true)
    (hn3 : cfg.enableNginx = true → env.nginxCfgOk = true)
    (hn4 : cfg.enableNginx = true → env.nginxEnableOk = true)
    (hn5 : cfg.enableNginx = true → env.nginxReloadOk = true)
    (hh : ∀ i, env.healthCheck i = false) :
    (deploy cfg env b gh iname cp hp initDB).result.success = true ∧
    (deploy cfg env b gh iname cp hp initDB).faultMsg = none ∧
    (deploy cfg env b gh iname cp hp initDB).failedStep = none ∧
    (∃ u, (deploy cfg env b gh iname cp hp initDB).result.url = some u) ∧
    (∃ d, (deploy cfg env b gh iname cp hp initDB).db.deps = [d] ∧
      d.status = "success" ∧ d.completedSet = true ∧ d.durationSet = true ∧
      (∃ u, d.deploymentUrl = some u) ∧
      (deploy cfg env b gh iname cp hp initDB).db.steps.filter
          (fun s => s.stepNumber == 9) =
        [⟨d.id, 9, "Health Check Warning", "warning",
          some (healthFailMsg cfg.healthCheckRetries)⟩]) := by
  have ht : Repo.get_default initDB = some ⟨0, "default"⟩ := by decide
  obtain ⟨q, hq⟩ := validateAndCreate_ok_of cfg env gh cp initDB ⟨0, "default"⟩ hv hc ht
  obtain ⟨hsteps, hdeps, hten, hlogs, happ, hstat, hstart, hsucc, herr, hinst, hlm⟩ :=
    validateAndCreate_ok cfg env gh cp initDB q hq
  obtain ⟨st28, hm⟩ := middlePhases_ok_of cfg env (orDefault hp cfg.dockerHostPort)
    q.2.1.id q.2.2.id
    (sanitize_name (iname.getD s!"autodeploy-{sanitize_name env.repoName}-{q.2.2.shortId}"))
    q.1 he hd1 hd2 hn1 hn2 hg1 hg2 hfk hbk hrk hn3 hn4 hn5
  obtain ⟨hmsteps, hmdeps, hmapps, hmten, hmnext, hmsucc, hmerr, hmlog⟩ :=
    (middlePhases_seg cfg env (orDefault hp cfg.dockerHostPort) q.2.1.id q.2.2.id
      (sanitize_name (iname.getD
        s!"autodeploy-{sanitize_name env.repoName}-{q.2.2.shortId}"))).2 q.1 st28 hm
  have hcore : deployCore cfg env gh iname cp hp initDB =
      .ok (finishPhase cfg env q.2.2.id q.2.1.id (orDefault hp cfg.dockerHostPort)
        (healthPhase cfg env q.2.2.id st28)) := by
    rw [deployCore_eq_chain]
    simp only [hq]
    rw [hm]
    rfl
  have hflat : deploy cfg env b gh iname cp hp initDB =
      ⟨(finishPhase cfg env q.2.2.id q.2.1.id (orDefault hp cfg.dockerHostPort)
          (healthPhase cfg env q.2.2.id st28)).result,
       (finishPhase cfg env q.2.2.id q.2.1.id (orDefault hp cfg.dockerHostPort)
          (healthPhase cfg env q.2.2.id st28)).db,
       (finishPhase cfg env q.2.2.id q.2.1.id (orDefault hp cfg.dockerHostPort)
          (healthPhase cfg env q.2.2.id st28)).sink,
       (finishPhase cfg env q.2.2.id q.2.1.id (orDefault hp cfg.dockerHostPort)
          (healthPhase cfg env q.2.2.id st28)).orch, none, none⟩ := by
    unfold deploy
    rw [hcore]
  obtain ⟨hfsucc, hferr, hfurl, hfsteps, hfdeps, hfdk, hfak, hften, hfnext, hflog⟩ :=
    finishPhase_facts cfg env q.2.2.id q.2.1.id (orDefault hp cfg.dockerHostPort)
      (healthPhase cfg env q.2.2.id st28)
  obtain ⟨hhsteps, hhdeps, hhapps, hhten, hhnext, hhsucc, hherr, hhlog⟩ :=
    healthPhase_facts cfg env q.2.2.id st28
  have hunh := wait_for_healthy_allFalse env.healthCheck cfg.healthCheckRetries hh
  rw [hflat]
  refine ⟨hfsucc, rfl, rfl, ⟨_, hfurl⟩, ?_⟩
  -- the deployment row
  have hdeps28 : st28.db.deps = [q.2.2] := by
    rw [hmdeps, hdeps]
    simp [initDB]
  have hdepsH : (healthPhase cfg env q.2.2.id st28).db.deps = [q.2.2] := by
    rw [hhdeps, hdeps28]
  refine ⟨{ q.2.2 with
      status := "success"
      completedSet := true
      durationSet := q.2.2.startedSet
      deploymentUrl := some (if cfg.enableNginx then s!"http://{env.publicIp}/"
        else format_deployment_url env.publicIp (orDefault hp cfg.dockerHostPort)) },
    ?_, rfl, rfl, ?_, ⟨_, rfl⟩, ?_⟩
  · rw [hfdeps, hdepsH]
    simp
  · simp [hstart]
  · -- the steps filter
    rw [hfsteps, hhsteps]
    rw [List.filter_append]
    have hpre : st28.db.steps.filter (fun s => s.stepNumber == 9) = [] := by
      rw [List.filter_eq_nil_iff]
      intro s hs
      rcases hmsteps s hs with h1 | h2
      · rw [hsteps] at h1
        simp [initDB] at h1
      · simp
        omega
    rw [hpre]
    simp [hunh.1, hunh.2]

/-- Witness for C2 at a concrete environment whose health probe always
fails. -/
theorem deploy_unhealthy_still_success_witness :
    (deploy demoCfg { demoEnv with healthCheck := fun _ => false } false "u"
        none none none initDB).result.success = true ∧
    (deploy demoCfg { demoEnv with healthCheck := fun _ => false } false "u"
        none none none initDB).faultMsg = none ∧
    (deploy demoCfg { demoEnv with healthCheck := fun _ => false } false "u"
        none none none initDB).failedStep = none ∧
    (∃ u, (deploy demoCfg { demoEnv with healthCheck := fun _ => false } false "u"
        none none none initDB).result.url = some u) ∧
    (∃ d, (deploy demoCfg { demoEnv with healthCheck := fun _ => false } false "u"
        none none none initDB).db.deps = [d] ∧
      d.status = "success" ∧ d.completedSet = true ∧ d.durationSet = true ∧
      (∃ u, d.deploymentUrl = some u) ∧
      (deploy demoCfg { demoEnv with healthCheck := fun _ => false } false "u"
          none none none initDB).db.steps.filter (fun s => s.stepNumber == 9) =
        [⟨d.id, 9, "Health Check Warning", "warning",
          some (healthFailMsg demoCfg.healthCheckRetries)⟩]) :=
  deploy_unhealthy_still_success demoCfg { demoEnv with healthCheck := fun _ => false }
    false "u" none none none rfl rfl rfl rfl rfl (by decide) (by decide) rfl rfl rfl rfl rfl
    (by decide) (by decide) (by decide) (fun _ => rfl)

/-- What the validate/create preamble does to the application and
deployment tables when validation passes: it reuses the application row
keyed by (tenant, github_url) when one exists and otherwise creates one
with a fresh id, and always creates one deployment row with a fresh id,
advancing the id counter accordingly. -/
theorem validateAndCreate_char (cfg : OrchConfig) (env : CollabEnv) (gh : String)
    (cp : Option Nat) (db0 : DB) (t : TenantRec)
    (hv : env.validUrl = true) (hc : env.validCfg = true)
    (ht : Repo.get_default db0 = some t) (q : RunState × AppRec × DepRec)
    (hq : validateAndCreate cfg env gh cp db0 = .ok q) :
    match Repo.get_by_github_url db0 t.id gh with
    | some a => q.2.2.id = db0.nextId ∧ q.2.1.id = a.id ∧
        appKeys q.1.db.apps = appKeys db0.apps ∧ q.1.db.nextId = db0.nextId + 1
    | none => q.2.2.id = db0.nextId + 1 ∧ q.2.1.id = db0.nextId ∧
        appKeys q.1.db.apps = appKeys db0.apps ++ [(db0.nextId, t.id, gh)] ∧
        q.1.db.nextId = db0.nextId + 2 := by
  cases hf : Repo.get_by_github_url db0 t.id gh with
  | some a =>
      have hf2 : db0.apps.find? (fun x => x.tenantId == t.id && x.githubUrl == gh)
          = some a := hf
      simp only [validateAndCreate, hv, hc, ht, Repo.get_or_create, Repo.get_by_github_url,
        update_progress_db_apps, hf2, Repo.createDep, Bool.not_true, Bool.false_eq_true,
        if_false] at hq
      injection hq with hq
      subst hq
      simp
  | none =>
      have hf2 : db0.apps.find? (fun x => x.tenantId == t.id && x.githubUrl == gh)
          = none := hf
      simp only [validateAndCreate, hv, hc, ht, Repo.get_or_create, Repo.get_by_github_url,
        update_progress_db_apps, hf2, Repo.createApp, Repo.createDep, Bool.not_true,
        Bool.false_eq_true, if_false] at hq
      injection hq with hq
      subst hq
      simp [appKeys]

/-- Key evolution of one whole deploy run (any collaborator outcomes,
any failure-bookkeeping behaviour) over a store whose validation passes:
tenants are untouched; the application table gains a row for this
(tenant, source URL) only if none existed; exactly one deployment row is
created, referencing the resolved application; the id counter advances
past every id handed out. -/
theorem deploy_run_keys (cfg : OrchConfig) (env : CollabEnv) (b : Bool) (gh : String)
    (iname : Option String) (cp hp : Option Nat) (db0 : DB) (t : TenantRec)
    (hv : env.validUrl = true) (hc : env.validCfg = true)
    (ht : Repo.get_default db0 = some t) :
    (deploy cfg env b gh iname cp hp db0).db.tenants = db0.tenants ∧
    (match Repo.get_by_github_url db0 t.id gh with
     | some a =>
         appKeys (deploy cfg env b gh iname cp hp db0).db.apps = appKeys db0.apps ∧
         depKeys (deploy cfg env b gh iname cp hp db0).db.deps
           = depKeys db0.deps ++ [(db0.nextId, a.id)] ∧
         db0.nextId < (deploy cfg env b gh iname cp hp db0).db.nextId
     | none =>
         appKeys (deploy cfg env b gh iname cp hp db0).db.apps
           = appKeys db0.apps ++ [(db0.nextId, t.id, gh)] ∧
         depKeys (deploy cfg env b gh iname cp hp db0).db.deps
           = depKeys db0.deps ++ [(db0.nextId + 1, db0.nextId)] ∧
         db0.nextId + 1 < (deploy cfg env b gh iname cp hp db0).db.nextId) := by
  obtain ⟨q, hq⟩ := validateAndCreate_ok_of cfg env gh cp db0 t hv hc ht
  obtain ⟨hsteps, hdeps, hten, hlogs, happ, hstat, hstart, hsucc, herr, hinst, hlm⟩ :=
    validateAndCreate_ok cfg env gh cp db0 q hq
  have hchar := validateAndCreate_char cfg env gh cp db0 t hv hc ht q hq
  have hdk : depKeys q.1.db.deps = depKeys db0.deps ++ [(q.2.2.id, q.2.1.id)] := by
    rw [hdeps]
    simp [depKeys, happ]
  unfold deploy
  rw [deployCore_eq_chain]
  simp only [hq]
  cases hm : middlePhases cfg env (orDefault hp cfg.dockerHostPort) q.2.1.id q.2.2.id
      (sanitize_name (iname.getD
        s!"autodeploy-{sanitize_name env.repoName}-{q.2.2.shortId}")) q.1 with
  | error f =>
      simp only [Except.map]
      obtain ⟨-, hedeps, heapps, heten, henext, -, -, -⟩ :=
        (middlePhases_seg cfg env (orDefault hp cfg.dockerHostPort) q.2.1.id q.2.2.id
          (sanitize_name (iname.getD
            s!"autodeploy-{sanitize_name env.repoName}-{q.2.2.shortId}"))).1 q.1 f hm
      obtain ⟨-, -, -, -, -, hfdk, hfak, hften, hfnext, -⟩ := failurePath_facts b f
      have c1 : (failurePath b f).db.tenants = db0.tenants := by
        rw [hften, heten, hten]
      have c3 : appKeys (failurePath b f).db.apps = appKeys q.1.db.apps := by
        rw [hfak, heapps]
      have c4 : depKeys (failurePath b f).db.deps
          = depKeys db0.deps ++ [(q.2.2.id, q.2.1.id)] := by
        rw [hfdk, hedeps, hdk]
      refine ⟨c1, ?_⟩
      cases hf : Repo.get_by_github_url db0 t.id gh with
      | some a =>
          rw [hf] at hchar
          exact ⟨c3.trans hchar.2.2.1, by rw [c4, hchar.1, hchar.2.1], by omega⟩
      | none =>
          rw [hf] at hchar
          exact ⟨c3.trans hchar.2.2.1, by rw [c4, hchar.1, hchar.2.1], by omega⟩
  | ok st28 =>
      simp only [Except.map]
      obtain ⟨-, hodeps, hoapps, hoten, honext, -, -, -⟩ :=
        (middlePhases_seg cfg env (orDefault hp cfg.dockerHostPort) q.2.1.id q.2.2.id
          (sanitize_name (iname.getD
            s!"autodeploy-{sanitize_name env.repoName}-{q.2.2.shortId}"))).2 q.1 st28 hm
      obtain ⟨-, hhdeps, hhapps, hhten, hhnext, -, -, -⟩ :=
        healthPhase_facts cfg env q.2.2.id st28
      obtain ⟨-, -, -, -, -, hgdk, hgak, hgten, hgnext, -⟩ :=
        finishPhase_facts cfg env q.2.2.id q.2.1.id (orDefault hp cfg.dockerHostPort)
          (healthPhase cfg env q.2.2.id st28)
      have c1 : (finishPhase cfg env q.2.2.id q.2.1.id (orDefault hp cfg.dockerHostPort)
          (healthPhase cfg env q.2.2.id st28)).db.tenants = db0.tenants := by
        rw [hgten, hhten, hoten, hten]
      have c3 : appKeys (finishPhase cfg env q.2.2.id q.2.1.id
          (orDefault hp cfg.dockerHostPort)
          (healthPhase cfg env q.2.2.id st28)).db.apps = appKeys q.1.db.apps := by
        rw [hgak, hhapps, hoapps]
      have c4 : depKeys (finishPhase cfg env q.2.2.id q.2.1.id
          (orDefault hp cfg.dockerHostPort)
          (healthPhase cfg env q.2.2.id st28)).db.deps
          = depKeys db0.deps ++ [(q.2.2.id, q.2.1.id)] := by
        rw [hgdk, hhdeps, hodeps, hdk]
      refine ⟨c1, ?_⟩
      cases hf : Repo.get_by_github_url db0 t.id gh with
      | some a =>
          rw [hf] at hchar
          exact ⟨c3.trans hchar.2.2.1, by rw [c4, hchar.1, hchar.2.1], by omega⟩
      | none =>
          rw [hf] at hchar
          exact ⟨c3.trans hchar.2.2.1, by rw [c4, hchar.1, hchar.2.1], by omega⟩

/-- A store whose application keys are a known singleton resolves that
URL to that row. -/
theorem appKeys_singleton_get (db : DB) (i tid : Nat) (u : String)
    (h : appKeys db.apps = [(i, tid, u)]) :
    ∃ a, Repo.get_by_github_url db tid u = some a ∧ a.id = i := by
  unfold appKeys at h
  cases happs : db.apps with
  | nil => rw [happs] at h; simp at h
  | cons a rest =>
      rw [happs] at h
      simp only [List.map_cons, List.cons.injEq, Prod.mk.injEq, List.map_eq_nil_iff] at h
      obtain ⟨⟨ha1, ha2, ha3⟩, -⟩ := h
      refine ⟨a, ?_, ha1⟩
      unfold Repo.get_by_github_url
      rw [happs]
      simp [List.find?, ha2, ha3]

/-- C7 — invoking deploy twice with the same tenant and the same source
repository URL over a fresh store resolves both runs to the identical
Application record: afterwards exactly one application row carries that
(tenant, URL) key, and exactly two deployment rows exist, with distinct
ids, each referencing that one application. -/
theorem deploy_twice_reuses_application (cfg : OrchConfig) (env1 env2 : CollabEnv)
    (b1 b2 : Bool) (gh : String) (i1 i2 : Option String) (cp1 cp2 hp1 hp2 : Option Nat)
    (hv1 : env1.validUrl = true) (hc1 : env1.validCfg = true)
    (hv2 : env2.validUrl = true) (hc2 : env2.validCfg = true) :
    ∃ appId d1 d2,
      appKeys (deploy cfg env2 b2 gh i2 cp2 hp2
        (deploy cfg env1 b1 gh i1 cp1 hp1 initDB).db).db.apps = [(appId, 0, gh)] ∧
      depKeys (deploy cfg env2 b2 gh i2 cp2 hp2
        (deploy cfg env1 b1 gh i1 cp1 hp1 initDB).db).db.deps
        = [(d1, appId), (d2, appId)] ∧
      d1 ≠ d2 := by
  have ht1 : Repo.get_default initDB = some ⟨0, "default"⟩ := by decide
  obtain ⟨c11, c12⟩ := deploy_run_keys cfg env1 b1 gh i1 cp1 hp1 initDB ⟨0, "default"⟩
    hv1 hc1 ht1
  have hf1 : Repo.get_by_github_url initDB (⟨0, "default"⟩ : TenantRec).id gh = none := rfl
  rw [hf1] at c12
  obtain ⟨ck1, ck2, ck3⟩ := c12
  have hk1 : appKeys (deploy cfg env1 b1 gh i1 cp1 hp1 initDB).db.apps = [(1, 0, gh)] := by
    rw [ck1]
    simp [initDB, appKeys]
  have hk2 : depKeys (deploy cfg env1 b1 gh i1 cp1 hp1 initDB).db.deps = [(2, 1)] := by
    rw [ck2]
    simp [initDB, depKeys]
  have ht2 : Repo.get_default (deploy cfg env1 b1 gh i1 cp1 hp1 initDB).db
      = some ⟨0, "default"⟩ := by
    unfold Repo.get_default
    rw [c11]
    decide
  obtain ⟨a, hfa, haid⟩ := appKeys_singleton_get
    (deploy cfg env1 b1 gh i1 cp1 hp1 initDB).db 1 0 gh hk1
  obtain ⟨c21, c22⟩ := deploy_run_keys cfg env2 b2 gh i2 cp2 hp2
    (deploy cfg env1 b1 gh i1 cp1 hp1 initDB).db ⟨0, "default"⟩ hv2 hc2 ht2
  have hfa2 : Repo.get_by_github_url (deploy cfg env1 b1 gh i1 cp1 hp1 initDB).db
      (⟨0, "default"⟩ : TenantRec).id gh = some a := hfa
  rw [hfa2] at c22
  obtain ⟨dk1, dk2, dk3⟩ := c22
  refine ⟨1, 2, (deploy cfg env1 b1 gh i1 cp1 hp1 initDB).db.nextId, ?_, ?_, ?_⟩
  · rw [dk1, hk1]
  · rw [dk2, hk2, haid]
    simp
  · have h3 : 2 < (deploy cfg env1 b1 gh i1 cp1 hp1 initDB).db.nextId := by
      have := ck3
      simpa [initDB] using this
    omega

/-- Witness for C7 at the all-succeeding concrete environment, run twice. -/
theorem deploy_twice_reuses_application_witness :
    ∃ appId d1 d2,
      appKeys (deploy demoCfg demoEnv false "https://github.com/o/r" none none none
        (deploy demoCfg demoEnv false "https://github.com/o/r" none none none
          initDB).db).db.apps = [(appId, 0, "https://github.com/o/r")] ∧
      depKeys (deploy demoCfg demoEnv false "https://github.com/o/r" none none none
        (deploy demoCfg demoEnv false "https://github.com/o/r" none none none
          initDB).db).db.deps = [(d1, appId), (d2, appId)] ∧
      d1 ≠ d2 :=
  deploy_twice_reuses_application demoCfg demoEnv demoEnv false false
    "https://github.com/o/r" none none none none none none rfl rfl rfl rfl

end MLDeploy


